import Mathlib

/-!
Shallow embedding of the web-activities messaging core (`src/messenger.js`):
the `Messenger` command channel, the `ActivityWindowPort` popup controller,
`ActivityResult`, and redirect-result recovery.  JavaScript values are
modelled by `JSVal`; DOM objects (windows, message ports, timers) are
modelled by numeric identifiers; observable actions (posting messages,
invoking callbacks, installing timers, settling promises) are modelled as
`Effect`s; a thrown JavaScript error is modelled as `Option String` or
`Except String`.
-/

/-- JavaScript values, restricted to the shapes the messenger protocol
exchanges: primitives, `Error` objects (identified by their message), and
plain objects as association lists of fields. -/
inductive JSVal where
  | undefined
  | null
  | bool (b : Bool)
  | num (n : Int)
  | str (s : String)
  | error (msg : String)
  | obj (fields : List (String × JSVal))

/-- JavaScript truthiness of a value. -/
def truthy : JSVal → Bool
  | .undefined => false
  | .null => false
  | .bool b => b
  | .num n => n != 0
  | .str s => s != ""
  | .error _ => true
  | .obj _ => true

/-- Property access `v[k]` on a value that is not `null`/`undefined`:
yields the field of an object, `undefined` otherwise (as for primitives). -/
def jsGet : JSVal → String → JSVal
  | .obj fields, k =>
    match fields.find? (fun p => p.1 == k) with
    | some p => p.2
    | none => .undefined
  | _, _ => .undefined

/-- Property access `v[k]` where `v` may be `null`/`undefined`, in which
case JavaScript throws a `TypeError`. -/
def jsGetE : JSVal → String → Except String JSVal
  | .null, _ => .error "TypeError"
  | .undefined, _ => .error "TypeError"
  | v, k => .ok (jsGet v k)

/-- JavaScript loose equality `==`, on the value shapes the protocol
actually compares (string/string, number/number, boolean/boolean, and the
null/undefined pair).  Cross-type coercions never arise for the modelled
comparisons and are mapped to `false`. -/
def jsLooseEq : JSVal → JSVal → Bool
  | .str a, .str b => a == b
  | .num a, .num b => a == b
  | .bool a, .bool b => a == b
  | .null, .null => true
  | .null, .undefined => true
  | .undefined, .null => true
  | .undefined, .undefined => true
  | _, _ => false

/-- JavaScript `String(v)` conversion.  `Error` objects stringify through
`Error.prototype.toString` as `"Error: <message>"` (just `"Error"` when the
message is empty); plain objects as `"[object Object]"`. -/
def jsToString : JSVal → String
  | .undefined => "undefined"
  | .null => "null"
  | .bool b => if b then "true" else "false"
  | .num n => toString n
  | .str s => s
  | .error m => if m = "" then "Error" else "Error: " ++ m
  | .obj _ => "[object Object]"

/-- Whether a value is exactly `null`. -/
def JSVal.isNull : JSVal → Bool
  | .null => true
  | _ => false

/-- The JavaScript idiom `v || null`: `v` when truthy, else `null`. -/
def jsOrNull (v : JSVal) : JSVal :=
  if truthy v then v else .null

/-- The JavaScript idiom `v || ''` on string values: identity except that a
falsy operand becomes the empty string. -/
def stringOrEmpty (s : String) : String :=
  if s = "" then "" else s

/-- The JavaScript idiom `v || ''` for an arbitrary value: the value when
truthy, else the empty string. -/
def jsOrEmptyStr (v : JSVal) : JSVal :=
  if truthy v then v else .str ""

/-- The protocol sentinel (`const SENTINEL = '__ACTIVITIES__'`). -/
def SENTINEL : String := "__ACTIVITIES__"

section JsonParsing

/-- Skip JSON whitespace. -/
def jsonSkipWs : List Char → List Char
  | c :: rest =>
    if c = ' ' ∨ c = '\t' ∨ c = '\n' ∨ c = '\r' then jsonSkipWs rest else c :: rest
  | [] => []

/-- Parse the remainder of a JSON string literal (the opening quote already
consumed), handling the basic escapes. -/
def jsonParseStringAux : List Char → Option (String × List Char)
  | [] => none
  | '"' :: rest => some ("", rest)
  | '\\' :: c :: rest =>
    let esc : Char := if c = 'n' then '\n' else if c = 't' then '\t' else c
    match jsonParseStringAux rest with
    | some (s, r) => some (String.mk (esc :: s.data), r)
    | none => none
  | c :: rest =>
    match jsonParseStringAux rest with
    | some (s, r) => some (String.mk (c :: s.data), r)
    | none => none

/-- Parse a run of decimal digits into a natural number. -/
def jsonParseDigits : List Char → Nat → Option (Nat × List Char)
  | c :: rest, acc =>
    if c.isDigit then
      match jsonParseDigits rest (acc * 10 + (c.toNat - '0'.toNat)) with
      | some r => some r
      | none => some (acc * 10 + (c.toNat - '0'.toNat), rest)
    else
      some (acc, c :: rest)
  | [], acc => some (acc, [])

mutual

/-- Fueled recursive-descent parser for the JSON subset the protocol uses
(objects, arrays, strings, integers, booleans, null). -/
def jsonParseVal : Nat → List Char → Option (JSVal × List Char)
  | 0, _ => none
  | fuel + 1, input =>
    match jsonSkipWs input with
    | [] => none
    | '"' :: rest =>
      match jsonParseStringAux rest with
      | some (s, r) => some (.str s, r)
      | none => none
    | '\x7b' :: rest =>
      (match jsonSkipWs rest with
       | '\x7d' :: r2 => some (.obj [], r2)
       | other => jsonParseMembers fuel other [])
    | '[' :: rest =>
      (match jsonSkipWs rest with
       | ']' :: r2 => some (.obj [], r2)
       | other => jsonParseElems fuel other)
    | 't' :: 'r' :: 'u' :: 'e' :: rest => some (.bool true, rest)
    | 'f' :: 'a' :: 'l' :: 's' :: 'e' :: rest => some (.bool false, rest)
    | 'n' :: 'u' :: 'l' :: 'l' :: rest => some (.null, rest)
    | '-' :: c :: rest =>
      if c.isDigit then
        match jsonParseDigits (c :: rest) 0 with
        | some (n, r) => some (.num (-(n : Int)), r)
        | none => none
      else none
    | c :: rest =>
      if c.isDigit then
        match jsonParseDigits (c :: rest) 0 with
        | some (n, r) => some (.num (n : Int), r)
        | none => none
      else none

/-- Parse the members of a JSON object (after the opening brace, when the
object is known to be non-empty). -/
def jsonParseMembers : Nat → List Char → List (String × JSVal) →
    Option (JSVal × List Char)
  | 0, _, _ => none
  | fuel + 1, input, acc =>
    match jsonSkipWs input with
    | '"' :: rest =>
      match jsonParseStringAux rest with
      | some (key, r1) =>
        (match jsonSkipWs r1 with
         | ':' :: r2 =>
           (match jsonParseVal fuel r2 with
            | some (v, r3) =>
              (match jsonSkipWs r3 with
               | ',' :: r4 => jsonParseMembers fuel r4 (acc ++ [(key, v)])
               | '\x7d' :: r4 => some (.obj (acc ++ [(key, v)]), r4)
               | _ => none)
            | none => none)
         | _ => none)
      | none => none
    | _ => none

/-- Parse the elements of a JSON array (arrays are modelled as objects with
numeric string keys; the protocol never inspects array results). -/
def jsonParseElems : Nat → List Char → Option (JSVal × List Char)
  | 0, _ => none
  | fuel + 1, input =>
    match jsonParseVal fuel input with
    | some (_, r1) =>
      (match jsonSkipWs r1 with
       | ',' :: r2 => jsonParseElems fuel r2
       | ']' :: r2 => some (.obj [], r2)
       | _ => none)
    | none => none

end

/-- `JSON.parse`, returning `none` on invalid input (the JavaScript
`SyntaxError` case). -/
def jsonParse (s : String) : Option JSVal :=
  match jsonParseVal (s.length + 1) s.data with
  | some (v, rest) => if jsonSkipWs rest = [] then some v else none
  | none => none

end JsonParsing

/-- The activity mode enum (`ActivityMode` in `activity-types`). -/
inductive ActivityMode where
  | iframe
  | popup
  | redirect
deriving DecidableEq, Repr

/-- The result-code string constant `ActivityResultCode.OK`. -/
def ActivityResultCode.OK : String := "ok"

/-- The result-code string constant `ActivityResultCode.CANCELED`. -/
def ActivityResultCode.CANCELED : String := "canceled"

/-- The result-code string constant `ActivityResultCode.FAILED`. -/
def ActivityResultCode.FAILED : String := "failed"

/-- The `ActivityResult` value.  `code` keeps the JavaScript value handed to
the constructor (the code compares it loosely against the string enum);
`error` models the `?Error` field by its message (`none` is `null`). -/
structure ActivityResult where
  code : JSVal
  data : JSVal
  mode : ActivityMode
  origin : JSVal
  originVerified : Bool
  secureChannel : Bool
  ok : Bool
  error : Option String

/-- The `ActivityResult` constructor: `data` is kept only for `OK`, `ok` is
the `OK` comparison, and `error` is `new Error(String(data) || '')` exactly
for `FAILED`. -/
def ActivityResult.make (code data : JSVal) (mode : ActivityMode) (origin : JSVal)
    (originVerified secureChannel : Bool) : ActivityResult :=
  { code := code
    data := if jsLooseEq code (.str ActivityResultCode.OK) then data else .null
    mode := mode
    origin := origin
    originVerified := originVerified
    secureChannel := secureChannel
    ok := jsLooseEq code (.str ActivityResultCode.OK)
    error :=
      if jsLooseEq code (.str ActivityResultCode.FAILED) then
        some (stringOrEmpty (jsToString data))
      else none }

/-- A sub-channel record (`ChannelHolderDef`): the two `MessagePort` ends by
identifier and the identity of the de-duplicated promise for this name.
Calling the stored resolver is modelled as a `resolveChannelPromise`
effect carrying `promiseId`. -/
structure ChannelHolder where
  port1 : Option Nat
  port2 : Option Nat
  promiseId : Nat
deriving DecidableEq, Repr

/-- The mutable state of one `Messenger`.  `targetOrCallback` is the value
the target window reference (or the lazily invoked callback) resolves to,
modelled as a constant for the session; `target` is the cached `target_`
field; `port` is the installed dedicated `MessagePort`; `onCommandSet` and
`onCustomMessageSet` model the nullability of the two callbacks;
`hasMessageChannel` models `typeof win.MessageChannel == 'function'`;
`nextId` supplies fresh identifiers for created ports and promises. -/
structure MState where
  targetOrCallback : Option Nat
  targetOrigin : Option String
  requireTarget : Bool
  target : Option Nat
  acceptsChannel : Bool
  port : Option Nat
  onCommandSet : Bool
  onCustomMessageSet : Bool
  channels : Option (List (String × ChannelHolder))
  hasMessageChannel : Bool
  nextId : Nat
deriving DecidableEq, Repr

/-- Observable actions of the embedded code: callback invocations, posted
messages (carrying the full envelope object), port/window/timer
housekeeping, and promise settlements. -/
inductive Effect where
  | onCommand (cmd : JSVal) (payload : JSVal)
  | onCustomMessage (payload : JSVal)
  | postToPort (portId : Nat) (data : JSVal) (transfer : List Nat)
  | postToWindow (winId : Nat) (targetOrigin : String) (data : JSVal) (transfer : List Nat)
  | portClosed (portId : Nat)
  | setPortOnMessage (portId : Nat)
  | addListener
  | removeListener
  | resolveChannelPromise (promiseId : Nat) (portId : Option Nat)
  | clearIntervalE (id : Nat)
  | setIntervalE (id : Nat) (delayMs : Nat)
  | setTimeoutE (delayMs : Nat) (task : Nat)
  | resolveResultE (r : ActivityResult)
  | rejectResultE (msg : String)
  | resolveConnected
  | winClose (winId : Nat)
  | winOpenE (url : String) (target : String) (features : String)
  | historyReplace (newFragment : String)

/-- Task tag for `setTimeoutE`: the `check_` timeout callback that tries to
resolve `CANCELED` (`taskFireCancel`), and the `check` command's delayed
re-check which invokes `check_()` without the delay flag
(`taskRunCheckNoDelay`). -/
def taskFireCancel : Nat := 0

/-- Task tag for the 200 ms re-check scheduled by the `check` command. -/
def taskRunCheckNoDelay : Nat := 1

/-- Construct a fresh `Messenger` (its constructor). -/
def Messenger.new (targetOrCallback : Option Nat) (targetOrigin : Option String)
    (requireTarget : Bool) (hasMessageChannel : Bool) : MState :=
  { targetOrCallback := targetOrCallback
    targetOrigin := targetOrigin
    requireTarget := requireTarget
    target := none
    acceptsChannel := false
    port := none
    onCommandSet := false
    onCustomMessageSet := false
    channels := none
    hasMessageChannel := hasMessageChannel
    nextId := 0 }

/-- `Messenger.connect(onCommand)`: throws when already connected, else
records the handler and adds the window message listener. -/
def Messenger.connect (st : MState) : MState × List Effect × Option String :=
  if st.onCommandSet then (st, [], some "already connected")
  else ({ st with onCommandSet := true }, [.addListener], none)

/-- `Messenger.disconnect()`: a no-op unless connected; otherwise clears the
handler, closes the dedicated port, removes the listener and closes all
sub-channel endpoints. -/
def Messenger.disconnect (st : MState) : MState × List Effect :=
  if st.onCommandSet then
    let portEffs : List Effect :=
      match st.port with
      | some p => [.portClosed p]
      | none => []
    let chanEffs : List Effect :=
      match st.channels with
      | some chans =>
        chans.foldr
          (fun kv acc =>
            (match kv.2.port1 with
             | some p => [Effect.portClosed p]
             | none => []) ++
            (match kv.2.port2 with
             | some p => [Effect.portClosed p]
             | none => []) ++ acc)
          []
      | none => []
    ({ st with onCommandSet := false, port := none, channels := none },
      portEffs ++ [.removeListener] ++ chanEffs)
  else (st, [])

/-- `Messenger.isConnected()`. -/
def Messenger.isConnected (st : MState) : Bool :=
  st.targetOrigin.isSome

/-- `Messenger.getOptionalTarget_()`: lazily resolves and caches the target
reference once a command handler is registered. -/
def Messenger.getOptionalTarget (st : MState) : MState × Option Nat :=
  if st.onCommandSet ∧ st.target = none then
    ({ st with target := st.targetOrCallback }, st.targetOrCallback)
  else (st, st.target)

/-- `Messenger.getTargetOrigin()`: throws `'not connected'` before the peer
origin is pinned. -/
def Messenger.getTargetOrigin (st : MState) : Except String String :=
  match st.targetOrigin with
  | none => .error "not connected"
  | some o => .ok o

/-- The envelope object built by `sendCommand`:
`{'sentinel': SENTINEL, 'cmd': cmd, 'payload': opt_payload || null}`. -/
def mkEnvelope (cmd : String) (payload : JSVal) : JSVal :=
  .obj [("sentinel", .str SENTINEL), ("cmd", .str cmd), ("payload", jsOrNull payload)]

/-- `Messenger.sendCommand(cmd, payload, transfer)`: routed to the
dedicated port when installed, else posted on the target window at the
pinned origin; only `connect` may fall back to the `'*'` wildcard while the
origin is unknown.  Throws `'not connected'` when the target is
unresolvable or (for other commands) the origin is not pinned. -/
def Messenger.sendCommand (st : MState) (cmd : String) (payload : JSVal)
    (transfer : List Nat) : MState × Except String (List Effect) :=
  let data := mkEnvelope cmd payload
  match st.port with
  | some p => (st, .ok [.postToPort p data transfer])
  | none =>
    let st1 := (Messenger.getOptionalTarget st).1
    match (Messenger.getOptionalTarget st).2 with
    | none => (st1, .error "not connected")
    | some w =>
      if cmd = "connect" then
        let tOrigin := st1.targetOrigin.getD "*"
        (st1, .ok [.postToWindow w tOrigin data transfer])
      else
        match st1.targetOrigin with
        | none => (st1, .error "not connected")
        | some o => (st1, .ok [.postToWindow w o data transfer])

/-- Association-list update used for `channels_[name] = holder`. -/
def updateChannel (chans : List (String × ChannelHolder)) (name : String)
    (h : ChannelHolder) : List (String × ChannelHolder) :=
  match chans with
  | [] => [(name, h)]
  | kv :: rest =>
    if kv.1 = name then (name, h) :: rest else kv :: updateChannel rest name h

/-- Association-list lookup on the channel map. -/
def lookupChannel (chans : List (String × ChannelHolder)) (name : String) :
    Option ChannelHolder :=
  match chans.find? (fun kv => kv.1 == name) with
  | some kv => some kv.2
  | none => none

/-- `Messenger.getChannelObj_(name)`: initializes the channel map on first
use and creates at most one holder (with a fresh promise) per name. -/
def Messenger.getChannelObj (st : MState) (name : String) : MState × ChannelHolder :=
  let chans := st.channels.getD []
  match lookupChannel chans name with
  | some h => ({ st with channels := some chans }, h)
  | none =>
    let h : ChannelHolder := { port1 := none, port2 := none, promiseId := st.nextId }
    ({ st with channels := some (updateChannel chans name h), nextId := st.nextId + 1 }, h)

/-- `Messenger.startChannel(name)`: lazily creates the local pair, resolves
the holder's promise with the local end, and sends the remote end via a
`cnset` command exactly when it is still pending.  Returns the promise
identity; a `sendCommand` throw propagates (leaving the pending remote end
in place, as in the source). -/
def Messenger.startChannel (st0 : MState) (name : String) :
    MState × List Effect × Except String Nat :=
  let st1 := (Messenger.getChannelObj st0 name).1
  let h0 := (Messenger.getChannelObj st0 name).2
  let created :=
    if h0.port1 = none then
      let p1 := st1.nextId
      let p2 := st1.nextId + 1
      let h1 : ChannelHolder := { h0 with port1 := some p1, port2 := some p2 }
      let st2 := { st1 with
        channels := some (updateChannel (st1.channels.getD []) name h1)
        nextId := st1.nextId + 2 }
      (st2, h1, [Effect.resolveChannelPromise h1.promiseId (some p1)])
    else (st1, h0, ([] : List Effect))
  let st2 := created.1
  let h1 := created.2.1
  let effsA := created.2.2
  match h1.port2 with
  | some p2 =>
    let st3 := (Messenger.sendCommand st2 "cnset" (.obj [("name", .str name)]) [p2]).1
    match (Messenger.sendCommand st2 "cnset" (.obj [("name", .str name)]) [p2]).2 with
    | .ok effsB =>
      let h2 : ChannelHolder := { h1 with port2 := none }
      ({ st3 with channels := some (updateChannel (st3.channels.getD []) name h2) },
        effsA ++ effsB, .ok h1.promiseId)
    | .error m => (st3, effsA, .error m)
  | none => (st2, effsA, .ok h1.promiseId)

/-- `Messenger.askChannel(name)`: requests the named channel from the peer
with a `cnget` command whenever the local end is not yet installed, and
returns the de-duplicated promise. -/
def Messenger.askChannel (st0 : MState) (name : String) :
    MState × List Effect × Except String Nat :=
  let st1 := (Messenger.getChannelObj st0 name).1
  let h := (Messenger.getChannelObj st0 name).2
  if h.port1 = none then
    let st2 := (Messenger.sendCommand st1 "cnget" (.obj [("name", .str name)]) []).1
    match (Messenger.sendCommand st1 "cnget" (.obj [("name", .str name)]) []).2 with
    | .ok effs => (st2, effs, .ok h.promiseId)
    | .error m => (st2, [], .error m)
  else (st1, [], .ok h.promiseId)

/-- `Messenger.receiveChannel_(name, port)`: installs the received end as
the local side of the named channel and resolves its promise. -/
def Messenger.receiveChannel (st0 : MState) (name : String) (port : Option Nat) :
    MState × List Effect :=
  let st1 := (Messenger.getChannelObj st0 name).1
  let h := (Messenger.getChannelObj st0 name).2
  ({ st1 with channels := some (updateChannel (st1.channels.getD []) name
      { h with port1 := port }) },
    [.resolveChannelPromise h.promiseId port])

/-- `Messenger.switchToChannel_(port)`: closes any previous dedicated port
and installs the new one (its `onmessage` dispatch is
`Messenger.handlePortMessage`). -/
def Messenger.switchToChannel (st : MState) (p : Nat) : MState × List Effect :=
  let effs : List Effect :=
    match st.port with
    | some old => [.portClosed old]
    | none => []
  ({ st with port := some p }, effs ++ [.setPortOnMessage p])

/-- `Messenger.sendStartCommand(args)`: when the peer advertised channel
support and `MessageChannel` exists, creates a pair, sends one end with the
`start` command and only then switches local routing to the other end. -/
def Messenger.sendStartCommand (st0 : MState) (args : JSVal) :
    MState × List Effect × Option String :=
  if st0.acceptsChannel ∧ st0.hasMessageChannel then
    let p1 := st0.nextId
    let p2 := st0.nextId + 1
    let st1 := { st0 with nextId := st0.nextId + 2 }
    let st2 := (Messenger.sendCommand st1 "start" args [p2]).1
    match (Messenger.sendCommand st1 "start" args [p2]).2 with
    | .error m => (st2, [], some m)
    | .ok effs =>
      ((Messenger.switchToChannel st2 p1).1,
        effs ++ (Messenger.switchToChannel st2 p1).2, none)
  else
    let st1 := (Messenger.sendCommand st0 "start" args []).1
    match (Messenger.sendCommand st0 "start" args []).2 with
    | .error m => (st1, [], some m)
    | .ok effs => (st1, effs, none)

/-- `Messenger.sendConnectCommand()`: announces `acceptsChannel` exactly
when the environment probe reports IE or Edge. -/
def Messenger.sendConnectCommand (st : MState) (isIe isEdge : Bool) :
    MState × Except String (List Effect) :=
  Messenger.sendCommand st "connect"
    (.obj [("acceptsChannel", .bool (isIe || isEdge))]) []

/-- An inbound message event: its data value, origin, source window and
transferred ports. -/
structure MessageEvent where
  data : JSVal
  origin : String
  source : Option Nat
  ports : List Nat

/-- `Messenger.handleCommand_(cmd, payload, event)`: the shared inbound
dispatch table.  A `TypeError` is recorded when the source would dereference
a null callback or a null payload. -/
def Messenger.handleCommand (st : MState) (cmd payload : JSVal) (e : MessageEvent) :
    MState × List Effect × Option String :=
  if jsLooseEq cmd (.str "connect") then
    let st1 :=
      match st.port with
      | some _ => { st with port := none }
      | none => st
    let effs1 : List Effect :=
      match st.port with
      | some p => [Effect.portClosed p]
      | none => []
    let st2 := { st1 with
      acceptsChannel := truthy payload && truthy (jsGet payload "acceptsChannel") }
    if st2.onCommandSet then (st2, effs1 ++ [.onCommand cmd payload], none)
    else (st2, effs1, some "TypeError")
  else if jsLooseEq cmd (.str "start") then
    let st1 :=
      match e.ports.head? with
      | some p => (Messenger.switchToChannel st p).1
      | none => st
    let effs1 : List Effect :=
      match e.ports.head? with
      | some p => (Messenger.switchToChannel st p).2
      | none => []
    if st1.onCommandSet then (st1, effs1 ++ [.onCommand cmd payload], none)
    else (st1, effs1, some "TypeError")
  else if jsLooseEq cmd (.str "msg") then
    if st.onCustomMessageSet && !payload.isNull then
      (st, [.onCustomMessage payload], none)
    else (st, [], none)
  else if jsLooseEq cmd (.str "cnget") then
    match jsGetE payload "name" with
    | .error er => (st, [], some er)
    | .ok nv =>
      let name := if truthy nv then jsToString nv else ""
      ((Messenger.startChannel st name).1, (Messenger.startChannel st name).2.1,
        match (Messenger.startChannel st name).2.2 with
        | .ok _ => none
        | .error er => some er)
  else if jsLooseEq cmd (.str "cnset") then
    match jsGetE payload "name" with
    | .error er => (st, [], some er)
    | .ok nv =>
      let name := jsToString nv
      ((Messenger.receiveChannel st name e.ports.head?).1,
        (Messenger.receiveChannel st name e.ports.head?).2, none)
  else
    if st.onCommandSet then (st, [.onCommand cmd payload], none)
    else (st, [], some "TypeError")

/-- The origin-pinning and dispatch tail of `handleEvent_` (its lines
following the sentinel and dedicated-port guards): pin the origin on the
first `start` command or the first source-matching message, discard the
message when its origin differs from the (possibly just pinned) trusted
origin, and otherwise dispatch it to `handleCommand_`. -/
def Messenger.pinAndDispatch (st1 : MState) (e : MessageEvent)
    (cmd payload : JSVal) : MState × List Effect × Option String :=
  let st2 :=
    if st1.targetOrigin = none ∧ jsLooseEq cmd (.str "start") then
      { st1 with targetOrigin := some e.origin }
    else st1
  let st3 :=
    if st2.targetOrigin = none ∧ e.source.isSome then
      (if (Messenger.getOptionalTarget st2).2 = e.source then
        { (Messenger.getOptionalTarget st2).1 with targetOrigin := some e.origin }
      else (Messenger.getOptionalTarget st2).1)
    else st2
  if st3.targetOrigin ≠ some e.origin then (st3, [], none)
  else Messenger.handleCommand st3 cmd payload e

/-- `Messenger.handleEvent_(event)`: the window broadcast listener.  It
confirms the source when a target is required, requires the exact sentinel,
lets only `connect`/`start` through once a dedicated port is installed,
pins the origin on the first qualifying message, and discards any message
whose origin differs from the pinned one. -/
def Messenger.handleEvent (st0 : MState) (e : MessageEvent) :
    MState × List Effect × Option String :=
  let st1 := if st0.requireTarget then (Messenger.getOptionalTarget st0).1 else st0
  if st0.requireTarget ∧ (Messenger.getOptionalTarget st0).2 ≠ e.source then
    (st1, [], none)
  else
    let data := e.data
    if !truthy data || !jsLooseEq (jsGet data "sentinel") (.str SENTINEL) then
      (st1, [], none)
    else
      let cmd := jsGet data "cmd"
      if st1.port.isSome && !jsLooseEq cmd (.str "connect")
          && !jsLooseEq cmd (.str "start") then
        (st1, [], none)
      else
        Messenger.pinAndDispatch st1 e cmd (jsOrNull (jsGet data "payload"))

/-- The `onmessage` dispatch installed on a dedicated port by
`switchToChannel_`: it forwards any data with a truthy `cmd` field to
`handleCommand_` without checking the sentinel. -/
def Messenger.handlePortMessage (st : MState) (e : MessageEvent) :
    MState × List Effect × Option String :=
  let data := e.data
  let cmd := if truthy data then jsGet data "cmd" else data
  let payload := jsOrNull (if truthy data then jsGet data "payload" else data)
  if truthy cmd then Messenger.handleCommand st cmd payload e
  else (st, [], none)

section UrlHelpers

/-- Split a character list on a separator character (an executable,
structurally recursive analogue of `String.splitOn` for one-character
separators). -/
def splitOnChar (c : Char) : List Char → List (List Char)
  | [] => [[]]
  | x :: rest =>
    if x = c then [] :: splitOnChar c rest
    else
      match splitOnChar c rest with
      | [] => [[x]]
      | seg :: segs => (x :: seg) :: segs

/-- Consume an expected prefix, returning the remainder on a match. -/
def dropPrefixEq : List Char → List Char → Option (List Char)
  | [], rest => some rest
  | _, [] => none
  | n :: ns, x :: xs => if n = x then dropPrefixEq ns xs else none

/-- Join character-list segments with `&`. -/
def joinAmp : List (List Char) → List Char
  | [] => []
  | [s] => s
  | s :: rest => s ++ '&' :: joinAmp rest

/-- Strip a leading `#` or `?`. -/
def stripHashQChars : List Char → List Char
  | '#' :: rest => rest
  | '?' :: rest => rest
  | s => s

/-- Modelled from the spec: `getOriginFromUrl` from `utils.js` is absent
from `src/`; per the spec it yields the origin (scheme and authority) of a
URL, used for referrer comparison and for the unconnected-popup origin
fallback. -/
def getOriginFromUrl (url : String) : String :=
  match splitOnChar '/' url.data with
  | scheme :: [] :: host :: _ => String.mk (scheme ++ '/' :: '/' :: host)
  | _ => url

/-- Modelled from the spec: `removeFragment` from `utils.js` is absent from
`src/`; it strips the `#fragment` part of a URL when computing the default
return URL. -/
def removeFragment (url : String) : String :=
  String.mk (url.data.takeWhile (fun c => c ≠ '#'))

/-- Modelled from the spec: `addFragmentParam` from `utils.js` is absent
from `src/`; it appends `name=value` to the URL fragment (percent-encoding
is not modelled). -/
def addFragmentParam (url name value : String) : String :=
  url ++ (if url.data.contains '#' then "&" else "#") ++ name ++ "=" ++ value

mutual

/-- JSON serialization of a `JSVal` (the platform `JSON.stringify`, used by
the spec-modelled `serializeRequest`). -/
def jsonStringify : JSVal → String
  | .undefined => "null"
  | .null => "null"
  | .bool b => if b then "true" else "false"
  | .num n => toString n
  | .str s => "\"" ++ s ++ "\""
  | .error m => "\x7b\"message\":\"" ++ m ++ "\"\x7d"
  | .obj fields => "\x7b" ++ jsonStringifyFields fields ++ "\x7d"

/-- Serialize the fields of a JSON object. -/
def jsonStringifyFields : List (String × JSVal) → String
  | [] => ""
  | [(k, v)] => "\"" ++ k ++ "\":" ++ jsonStringify v
  | (k, v) :: rest =>
    "\"" ++ k ++ "\":" ++ jsonStringify v ++ "," ++ jsonStringifyFields rest

end

/-- Modelled from the spec: `serializeRequest` from `utils.js` is absent
from `src/`; it serializes the activity request
`{requestId, returnUrl, args}` embedded in the destination URL. -/
def serializeRequest (requestId returnUrl : String) (args : JSVal) : String :=
  jsonStringify (.obj
    [("requestId", .str requestId), ("returnUrl", .str returnUrl), ("args", args)])

/-- Modelled from the spec: `getQueryParam` from `utils.js` is absent from
`src/`; it finds the value of a named `name=value` parameter inside a
fragment/query string (percent-decoding is not modelled). -/
def getQueryParam (fragment : String) (name : String) : Option String :=
  (splitOnChar '&' (stripHashQChars fragment.data)).findSome? (fun seg =>
    (dropPrefixEq (name.data ++ ['=']) seg).map String.mk)

/-- Modelled from the spec: `removeQueryParam` from `utils.js` is absent
from `src/`; it removes a named parameter from a fragment string. -/
def removeQueryParam (fragment : String) (name : String) : String :=
  let hasHash : Bool :=
    match fragment.data with
    | '#' :: _ => true
    | _ => false
  let segs := (splitOnChar '&' (stripHashQChars fragment.data)).filter
    (fun seg => (dropPrefixEq (name.data ++ ['=']) seg).isNone)
  let core := joinAmp (segs.filter (fun seg => seg ≠ []))
  if hasHash then (if core = [] then "" else String.mk ('#' :: core))
  else String.mk core

end UrlHelpers

/-- The window facts consumed by `discoverRedirectPort`: the current
`location.hash` and `document.referrer`. -/
structure RWin where
  locationHash : String
  referrer : String
deriving DecidableEq, Repr

/-- The `ActivityWindowRedirectPort` state: the decoded result code, data
and declared origin, plus the referrer-verification flag. -/
structure RedirectPort where
  code : JSVal
  data : JSVal
  targetOrigin : JSVal
  targetOriginVerified : Bool

/-- `ActivityWindowRedirectPort.getMode()`. -/
def RedirectPort.getMode (_ : RedirectPort) : ActivityMode := .redirect

/-- `ActivityWindowRedirectPort.acceptResult()`: builds the result with
`mode = REDIRECT` and `secureChannel = false` and settles the returned
promise with it immediately (via the spec-modelled `resolveResult`); the
immediate settlement is modelled by returning the constructed result. -/
def RedirectPort.acceptResult (p : RedirectPort) : ActivityResult :=
  ActivityResult.make p.code p.data .redirect p.targetOrigin p.targetOriginVerified false

/-- `discoverRedirectPort(win, fragment, requestId)`: recovers a
redirect-mode result from the `__WA_RES__` fragment parameter.  Returns
`none` when the parameter is absent or the decoded `requestId` does not
match; strips the consumed parameter from the visible URL (best effort,
as a `historyReplace` effect); `originVerified` compares the payload's
declared origin with the referrer's origin.  A `JSON.parse` failure throws
(`Except.error`). -/
def discoverRedirectPort (win : RWin) (fragment : String) (requestId : String) :
    Except String (Option RedirectPort × List Effect) :=
  let paramName := "__WA_RES__"
  match getQueryParam fragment paramName with
  | none => .ok (none, [])
  | some fragmentParam =>
    match jsonParse fragmentParam with
    | none => .error "SyntaxError"
    | some response =>
      if !truthy response || !jsLooseEq (jsGet response "requestId") (.str requestId) then
        .ok (none, [])
      else
        let cleanFragment := stringOrEmpty (removeQueryParam win.locationHash paramName)
        let effs :=
          if cleanFragment ≠ win.locationHash then [Effect.historyReplace cleanFragment]
          else []
        let origin := jsGet response "origin"
        let referrerOrigin :=
          if win.referrer = "" then "" else getOriginFromUrl win.referrer
        .ok (some
          { code := jsGet response "code"
            data := jsGet response "data"
            targetOrigin := origin
            targetOriginVerified := jsLooseEq origin (.str referrerOrigin) }, effs)

/-- The activity open options (`ActivityOpenOptionsDef`).  `width`/`height`
of `none` model absent (or falsy) caller overrides. -/
structure WOptions where
  returnUrl : Option String
  skipRequestInUrl : Bool
  disableRedirectFallback : Bool
  width : Option Int
  height : Option Int
deriving DecidableEq, Repr

/-- The mutable state of one `ActivityWindowPort`.  The `connectedResolver`
and `resultResolver` flags model the nullability of the stored one-shot
resolver references; `winHasMessageChannel` models the window's
`MessageChannel` capability passed down to the owned `Messenger`;
`nextTimerId` supplies fresh interval identifiers. -/
structure PortState where
  requestId : String
  url : String
  openTarget : String
  args : JSVal
  options : WOptions
  connectedResolver : Bool
  resultResolver : Bool
  targetWin : Option Nat
  heartbeatInterval : Option Nat
  messenger : Option MState
  winHasMessageChannel : Bool
  nextTimerId : Nat

/-- The `ActivityWindowPort` constructor: validates the open target
(`_blank`, `_top` or a name not starting with an underscore) and
initializes the resolvers and nullable fields. -/
def ActivityWindowPort.make (requestId url target : String) (args : JSVal)
    (options : WOptions) (winHasMessageChannel : Bool) : Except String PortState :=
  let isValidTarget :=
    target ≠ "" ∧ (target = "_blank" ∨ target = "_top" ∨ ¬ target.startsWith "_")
  if isValidTarget then
    .ok { requestId := requestId
          url := url
          openTarget := target
          args := args
          options := options
          connectedResolver := true
          resultResolver := true
          targetWin := none
          heartbeatInterval := none
          messenger := none
          winHasMessageChannel := winHasMessageChannel
          nextTimerId := 0 }
  else
    .error "The only allowed targets are \"_blank\", \"_top\" and name targets"

/-- `ActivityWindowPort.getMode()`: `REDIRECT` exactly for the stored
`_top` open target, else `POPUP`. -/
def ActivityWindowPort.getMode (pst : PortState) : ActivityMode :=
  if pst.openTarget = "_top" then .redirect else .popup

/-- `ActivityWindowPort.disconnect()`: clears the heartbeat, disconnects
and drops the messenger, best-effort closes the opened window, and releases
the result resolver reference. -/
def ActivityWindowPort.disconnect (pst0 : PortState) : PortState × List Effect :=
  let s1 :=
    match pst0.heartbeatInterval with
    | some hid => ({ pst0 with heartbeatInterval := none }, [Effect.clearIntervalE hid])
    | none => (pst0, ([] : List Effect))
  let s2 :=
    match s1.1.messenger with
    | some m =>
      let md := Messenger.disconnect m
      ({ s1.1 with messenger := none }, md.2)
    | none => (s1.1, ([] : List Effect))
  let s3 :=
    match s2.1.targetWin with
    | some w => ({ s2.1 with targetWin := none }, [Effect.winClose w])
    | none => (s2.1, ([] : List Effect))
  ({ s3.1 with resultResolver := false }, s1.2 ++ s2.2 ++ s3.2)

/-- `ActivityWindowPort.disconnectWithError_(reason)`: rejects the result
promise when the resolver is still held, then disconnects. -/
def ActivityWindowPort.disconnectWithError (pst : PortState) (msg : String) :
    PortState × List Effect :=
  let effs : List Effect := if pst.resultResolver then [.rejectResultE msg] else []
  let d := ActivityWindowPort.disconnect pst
  (d.1, effs ++ d.2)

/-- The tail of `ActivityWindowPort.result_`: send the courtesy `close`
command when a messenger exists (a `'not connected'` throw propagates and
skips the final disconnect), then fully disconnect. -/
def ActivityWindowPort.resultTail (pst : PortState) (acc : List Effect) :
    PortState × List Effect × Option String :=
  match pst.messenger with
  | some m =>
    let sc := Messenger.sendCommand m "close" .null []
    let pst1 := { pst with messenger := some sc.1 }
    match sc.2 with
    | .error er => (pst1, acc, some er)
    | .ok effs =>
      let d := ActivityWindowPort.disconnect pst1
      (d.1, acc ++ effs ++ d.2, none)
  | none =>
    let d := ActivityWindowPort.disconnect pst
    (d.1, acc ++ d.2, none)

/-- `ActivityWindowPort.result_(code, data)`: when the one-shot resolver is
still held, build the `ActivityResult` (origin and the verified/secure
flags derived from whether the messenger ever connected, falling back to
the origin of the destination URL), settle the result promise with it, and
clear the resolver; then send `close` and disconnect.  Dereferencing a null
messenger throws. -/
def ActivityWindowPort.resultInternal (pst0 : PortState) (code data : JSVal) :
    PortState × List Effect × Option String :=
  if pst0.resultResolver then
    match pst0.messenger with
    | none => (pst0, [], some "TypeError")
    | some m =>
      let isConn := Messenger.isConnected m
      let origin : JSVal :=
        match m.targetOrigin with
        | some o => .str o
        | none => .str (getOriginFromUrl pst0.url)
      let r := ActivityResult.make code data .popup origin isConn isConn
      let pst1 := { pst0 with resultResolver := false }
      ActivityWindowPort.resultTail pst1 [.resolveResultE r]
  else
    ActivityWindowPort.resultTail pst0 []

/-- `ActivityWindowPort.check_(opt_delayCancel)`: when the opened context
is gone or reports itself closed, stop the heartbeat poll and schedule the
`CANCELED` resolution after 3000 ms when the delay flag is passed (the
heartbeat path) and 0 ms otherwise. -/
def ActivityWindowPort.check (pst0 : PortState) (targetClosed : Bool)
    (delayCancel : Bool) : PortState × List Effect :=
  if pst0.targetWin = none ∨ targetClosed then
    let s1 :=
      match pst0.heartbeatInterval with
      | some hid => ({ pst0 with heartbeatInterval := none }, [Effect.clearIntervalE hid])
      | none => (pst0, ([] : List Effect))
    (s1.1, s1.2 ++ [.setTimeoutE (if delayCancel then 3000 else 0) taskFireCancel])
  else (pst0, [])

/-- The timeout callback scheduled by `check_`: try to resolve `CANCELED`
with null data; a throw is caught and turned into `disconnectWithError_`. -/
def ActivityWindowPort.cancelTimeoutFire (pst : PortState) : PortState × List Effect :=
  let r := ActivityWindowPort.resultInternal pst (.str ActivityResultCode.CANCELED) .null
  match r.2.2 with
  | none => (r.1, r.2.1)
  | some er =>
    let d := ActivityWindowPort.disconnectWithError r.1 er
    (d.1, r.2.1 ++ d.2)

/-- `ActivityWindowPort.handleCommand_(cmd, payload)`: on `connect` send
`start` (with the original args) and fulfil the connected promise; on
`result` decode the code, wrap a `FAILED` reason in an `Error`, and deliver
through `result_`; on `check` re-run the closed check on a 200 ms delay. -/
def ActivityWindowPort.handleCommand (pst : PortState) (cmd payload : JSVal) :
    PortState × List Effect × Option String :=
  if jsLooseEq cmd (.str "connect") then
    match pst.messenger with
    | none => (pst, [], some "TypeError")
    | some m =>
      let r := Messenger.sendStartCommand m pst.args
      match r.2.2 with
      | some er => ({ pst with messenger := some r.1 }, r.2.1, some er)
      | none => ({ pst with messenger := some r.1 }, r.2.1 ++ [.resolveConnected], none)
  else if jsLooseEq cmd (.str "result") then
    match jsGetE payload "code" with
    | .error er => (pst, [], some er)
    | .ok code =>
      let data :=
        if jsLooseEq code (.str ActivityResultCode.FAILED) then
          JSVal.error (jsToString (jsOrEmptyStr (jsGet payload "data")))
        else jsGet payload "data"
      ActivityWindowPort.resultInternal pst code data
  else if jsLooseEq cmd (.str "check") then
    (pst, [.setTimeoutE 200 taskRunCheckNoDelay], none)
  else (pst, [], none)

/-- The screen and viewport metrics consumed by `buildFeatures_`, plus the
environment probes it uses. -/
structure ScreenEnv where
  width : Int
  height : Int
  availWidth : Int
  availHeight : Int
  outerWidth : Int
  innerWidth : Int
  outerHeight : Int
  innerHeight : Int
  isTop : Bool
  isEdge : Bool
deriving DecidableEq, Repr

/-- Render a tenth-of-a-pixel quantity as the popup feature string does:
all values `buildFeatures_` produces are integers or halves, so tenths are
exact. -/
def tenthsToString (t : Int) : String :=
  if Int.emod t 10 = 0 then toString (Int.ediv t 10)
  else toString (Int.ediv t 10) ++ "." ++ toString (Int.emod t 10).natAbs

/-- `ActivityWindowPort.buildFeatures_()`: the centered-popup geometry
computation, carried out in exact tenths of a pixel (the source uses
floating point; every quantity it builds is an integer or a half). -/
def ActivityWindowPort.buildFeatures (pst : PortState) (env : ScreenEnv) : String :=
  let availWidth := if env.availWidth ≠ 0 then env.availWidth else env.width
  let availHeight := if env.availHeight ≠ 0 then env.availHeight else env.height
  let controlsWidth :=
    if env.isTop ∧ env.outerWidth > env.innerWidth then
      min 100 (env.outerWidth - env.innerWidth)
    else (if env.isEdge then 100 else 0)
  let controlsHeight :=
    if env.isTop ∧ env.outerHeight > env.innerHeight then
      min 100 (env.outerHeight - env.innerHeight)
    else (if env.isEdge then 100 else 0)
  let maxWidthT := max ((availWidth - controlsWidth) * 10) (availWidth * 5)
  let maxHeightT := max ((availHeight - controlsHeight) * 10) (availHeight * 5)
  let wT :=
    match pst.options.width with
    | some ow => min (ow * 10) maxWidthT
    | none => Int.ediv (min 60000 (9 * maxWidthT)) 100 * 10
  let hT :=
    match pst.options.height with
    | some oh => min (oh * 10) maxHeightT
    | none => Int.ediv (min 60000 (9 * maxHeightT)) 100 * 10
  let x := Int.ediv (env.width * 10 - wT) 20
  let y := Int.ediv (env.height * 10 - hT) 20
  let base := [("height", tenthsToString hT), ("width", tenthsToString wT),
               ("resizable", "yes"), ("scrollbars", "yes")]
  let feats :=
    if env.isEdge then base
    else base ++ [("left", toString x), ("top", toString y)]
  String.intercalate "," (feats.map (fun kv => kv.1 ++ "=" ++ kv.2))

/-- `ActivityWindowPort.setupPopup_()`: start the 500 ms liveness poll and
a fresh `Messenger` bound to the opened window (null target origin, source
matching required), connected to the port's command handler. -/
def ActivityWindowPort.setupPopup (pst0 : PortState) : PortState × List Effect :=
  let hid := pst0.nextTimerId
  let pst1 := { pst0 with
    heartbeatInterval := some hid
    nextTimerId := pst0.nextTimerId + 1 }
  let m0 := Messenger.new pst1.targetWin none true pst1.winHasMessageChannel
  let mc := Messenger.connect m0
  ({ pst1 with messenger := some mc.1 }, [Effect.setIntervalE hid 500] ++ mc.2.1)

/-- The environment facts consumed by one `openInternal_` run: the IE
probe, the current page URL, the outcome of each `win.open` attempt
(`none` models both a null return and a throw), and the screen metrics. -/
structure OpenEnv where
  isIe : Bool
  locationHref : String
  firstOpenResult : Option Nat
  fallbackOpenResult : Option Nat
  screen : ScreenEnv

/-- The tail of `openInternal_` (the "setup the target window" block):
store the opened window and set up the popup when the final open target is
not `_top`; when no window was opened at all, reject the result promise. -/
def ActivityWindowPort.openFinish (pst0 : PortState) (targetWin : Option Nat)
    (finalTarget : String) : PortState × List Effect :=
  match targetWin with
  | some w =>
    let pst1 := { pst0 with targetWin := some w }
    if finalTarget ≠ "_top" then
      let sp := ActivityWindowPort.setupPopup pst1
      (sp.1, sp.2)
    else (pst1, [])
  | none => ActivityWindowPort.disconnectWithError pst0 "failed to open window"

/-- `ActivityWindowPort.openInternal_()`: embed the serialized request in
the URL fragment unless opted out, force `_top` on IE, try the requested
target, fall back once to `_top` when the first open failed and the
fallback is not disabled, then either set up the popup (non-`_top` final
target) or, when no window was opened at all, reject the result promise. -/
def ActivityWindowPort.openInternal (pst0 : PortState) (env : OpenEnv) :
    PortState × List Effect :=
  let featuresStr := ActivityWindowPort.buildFeatures pst0 env.screen
  let url :=
    if ¬ pst0.options.skipRequestInUrl then
      let returnUrl := pst0.options.returnUrl.getD (removeFragment env.locationHref)
      let requestString := serializeRequest pst0.requestId returnUrl pst0.args
      addFragmentParam pst0.url "__WA__" requestString
    else pst0.url
  let openTarget1 := if pst0.openTarget ≠ "_top" ∧ env.isIe then "_top" else pst0.openTarget
  let firstEffs := [Effect.winOpenE url openTarget1 featuresStr]
  let second :=
    if env.firstOpenResult = none ∧ openTarget1 ≠ "_top"
        ∧ ¬ pst0.options.disableRedirectFallback then
      (env.fallbackOpenResult, "_top", firstEffs ++ [Effect.winOpenE url "_top" ""])
    else (env.firstOpenResult, openTarget1, firstEffs)
  let fin := ActivityWindowPort.openFinish pst0 second.1 second.2.1
  (fin.1, second.2.2 ++ fin.2)

/-- First result handed to the result resolver among a list of effects. -/
def findDeliveredResult (effs : List Effect) : Option ActivityResult :=
  effs.findSome? (fun e =>
    match e with
    | .resolveResultE r => some r
    | _ => none)

/-- Whether an effect invokes a registered command or custom-message
callback. -/
def Effect.isCallback : Effect → Bool
  | .onCommand _ _ => true
  | .onCustomMessage _ => true
  | _ => false

/-- Whether an effect posts an envelope whose command is `c`. -/
def Effect.isSendOf (c : String) : Effect → Bool
  | .postToPort _ data _ => jsLooseEq (jsGet data "cmd") (.str c)
  | .postToWindow _ _ data _ => jsLooseEq (jsGet data "cmd") (.str c)
  | _ => false

/-- Number of posted envelopes with command `c` among a list of effects. -/
def countSends (effs : List Effect) (c : String) : Nat :=
  (effs.filter (Effect.isSendOf c)).length

/-- Number of channel holders stored for a name. -/
def channelCount (st : MState) (name : String) : Nat :=
  ((st.channels.getD []).filter (fun kv => kv.1 == name)).length

/-- The target-reference cache of a messenger is settled: resolving the
target again cannot change the state.  This holds after any `handleEvent_`
run in a connected client-role session (the claim's pinning events) because
the source-confirmation step resolves and caches the target first. -/
def cacheSettled (st : MState) : Prop :=
  st.onCommandSet = true → st.target = none → st.targetOrCallback = none

/-- A connected sample messenger with a dedicated port installed. -/
def sampleMessenger : MState :=
  { targetOrCallback := some 1
    targetOrigin := some "https://host.example"
    requireTarget := true
    target := some 1
    acceptsChannel := false
    port := some 5
    onCommandSet := true
    onCustomMessageSet := true
    channels := none
    hasMessageChannel := true
    nextId := 10 }

/-- A popup-mode sample port in its steady state (heartbeat running,
result pending, messenger connected). -/
def samplePort : PortState :=
  { requestId := "req1"
    url := "https://host.example/activity"
    openTarget := "_blank"
    args := .null
    options := { returnUrl := none, skipRequestInUrl := false,
                 disableRedirectFallback := false, width := none, height := none }
    connectedResolver := true
    resultResolver := true
    targetWin := some 2
    heartbeatInterval := some 3
    messenger := some sampleMessenger
    winHasMessageChannel := true
    nextTimerId := 4 }

/-- The redirect-return fragment of the redirect-recovery scenario. -/
def waResFragment : String :=
  "#__WA_RES__=\x7b\"requestId\":\"r1\",\"code\":\"ok\",\"data\":\x7b\"a\":1\x7d,\"origin\":\"https://x\"\x7d"

theorem jsLooseEq_str_unique {c : JSVal} {a b : String}
    (ha : jsLooseEq c (.str a) = true) (hb : jsLooseEq c (.str b) = true) : a = b := by
  cases c <;> simp [jsLooseEq] at ha hb
  rw [← ha, hb]

/-- C8: every constructed `ActivityResult` satisfies `ok == (code == OK)`,
has a constructed error exactly when `code == FAILED`, keeps non-null data
only for `code == OK`, and stores null data for `CANCELED` and `FAILED`. -/
theorem c8_result_invariants (code data : JSVal) (mode : ActivityMode)
    (origin : JSVal) (ov sc : Bool) :
    (ActivityResult.make code data mode origin ov sc).ok =
        jsLooseEq code (.str ActivityResultCode.OK) ∧
    (ActivityResult.make code data mode origin ov sc).error.isSome =
        jsLooseEq code (.str ActivityResultCode.FAILED) ∧
    ((ActivityResult.make code data mode origin ov sc).data.isNull = false →
        jsLooseEq code (.str ActivityResultCode.OK) = true) ∧
    ((jsLooseEq code (.str ActivityResultCode.CANCELED) = true ∨
        jsLooseEq code (.str ActivityResultCode.FAILED) = true) →
      (ActivityResult.make code data mode origin ov sc).data.isNull = true) := by
  refine ⟨rfl, ?_, ?_, ?_⟩
  · by_cases h : jsLooseEq code (.str ActivityResultCode.FAILED) = true <;>
      simp [ActivityResult.make, h]
  · intro hd
    by_cases h : jsLooseEq code (.str ActivityResultCode.OK) = true
    · exact h
    · exfalso
      simp [ActivityResult.make, h, JSVal.isNull] at hd
  · intro h
    have hok : jsLooseEq code (.str ActivityResultCode.OK) = false := by
      rcases h with h | h
      · by_cases h2 : jsLooseEq code (.str ActivityResultCode.OK) = true
        · exact absurd (jsLooseEq_str_unique h2 h) (by decide)
        · simpa using h2
      · by_cases h2 : jsLooseEq code (.str ActivityResultCode.OK) = true
        · exact absurd (jsLooseEq_str_unique h2 h) (by decide)
        · simpa using h2
    simp [ActivityResult.make, hok, JSVal.isNull]

/-- C8 witness: evaluated at a concrete `FAILED` construction. -/
theorem c8_result_invariants_witness :
    ((ActivityResult.make (.str "failed") (.str "x") .popup (.str "o") true true).error.isSome =
        jsLooseEq (.str "failed") (.str ActivityResultCode.FAILED)) := by
  exact (c8_result_invariants (.str "failed") (.str "x") .popup (.str "o") true true).2.1

theorem findDeliveredResult_resultTail (pst : PortState) (r : ActivityResult)
    (effs : List Effect) :
    findDeliveredResult
      (ActivityWindowPort.resultTail pst (Effect.resolveResultE r :: effs)).2.1 = some r := by
  unfold ActivityWindowPort.resultTail
  cases hm : pst.messenger with
  | none => simp [findDeliveredResult]
  | some m =>
    cases hsc : (Messenger.sendCommand m "close" JSVal.null []).2 with
    | error er => simp [hsc, findDeliveredResult]
    | ok es => simp [hsc, findDeliveredResult]

theorem resultInternal_resolved (pst : PortState) (m : MState) (code data : JSVal)
    (hres : pst.resultResolver = true) (hm : pst.messenger = some m) :
    ActivityWindowPort.resultInternal pst code data =
      ActivityWindowPort.resultTail { pst with resultResolver := false }
        [.resolveResultE (ActivityResult.make code data .popup
          (match m.targetOrigin with
           | some o => .str o
           | none => .str (getOriginFromUrl pst.url))
          (Messenger.isConnected m) (Messenger.isConnected m))] := by
  simp [ActivityWindowPort.resultInternal, hres, hm]

/-- C1 (amended): a `result` command with `code: "failed"` settles the
result promise with an `ActivityResult` whose code is `FAILED`, whose `ok`
is false and whose data is null, but whose error message is the
host-provided reason wrapped twice in `Error` construction: `"Error: boom"`
for reason `"boom"`, and `"Error"` when the reason is absent. -/
theorem c1_failed_result (pst : PortState) (m : MState)
    (hres : pst.resultResolver = true) (hm : pst.messenger = some m) :
    (∃ r, findDeliveredResult
        (ActivityWindowPort.handleCommand pst (.str "result")
          (.obj [("code", .str "failed"), ("data", .str "boom")])).2.1 = some r ∧
      r.code = .str ActivityResultCode.FAILED ∧ r.ok = false ∧ r.data = .null ∧
      r.error = some "Error: boom") ∧
    (∃ r, findDeliveredResult
        (ActivityWindowPort.handleCommand pst (.str "result")
          (.obj [("code", .str "failed")])).2.1 = some r ∧
      r.error = some "Error") := by
  constructor
  · refine ⟨ActivityResult.make (.str "failed") (.error "boom") .popup
      (match m.targetOrigin with
       | some o => .str o
       | none => .str (getOriginFromUrl pst.url))
      (Messenger.isConnected m) (Messenger.isConnected m), ?_, rfl, rfl, rfl, rfl⟩
    have h1 : ActivityWindowPort.handleCommand pst (.str "result")
        (.obj [("code", .str "failed"), ("data", .str "boom")]) =
        ActivityWindowPort.resultInternal pst (.str "failed") (.error "boom") := rfl
    rw [h1, resultInternal_resolved pst m _ _ hres hm]
    exact findDeliveredResult_resultTail _ _ _
  · refine ⟨ActivityResult.make (.str "failed") (.error "") .popup
      (match m.targetOrigin with
       | some o => .str o
       | none => .str (getOriginFromUrl pst.url))
      (Messenger.isConnected m) (Messenger.isConnected m), ?_, rfl⟩
    have h1 : ActivityWindowPort.handleCommand pst (.str "result")
        (.obj [("code", .str "failed")]) =
        ActivityWindowPort.resultInternal pst (.str "failed") (.error "") := rfl
    rw [h1, resultInternal_resolved pst m _ _ hres hm]
    exact findDeliveredResult_resultTail _ _ _

/-- C1 witness: the amended theorem evaluated on the sample port. -/
theorem c1_failed_result_witness :
    ∃ r, findDeliveredResult
        (ActivityWindowPort.handleCommand samplePort (.str "result")
          (.obj [("code", .str "failed"), ("data", .str "boom")])).2.1 = some r ∧
      r.code = .str ActivityResultCode.FAILED ∧ r.ok = false ∧ r.data = .null ∧
      r.error = some "Error: boom" :=
  (c1_failed_result samplePort sampleMessenger rfl rfl).1

/-- C1 counterexample: at the concrete input of the claim the delivered
error message is `"Error: boom"`, not the `"boom"` the claim states. -/
theorem c1_counterexample :
    (findDeliveredResult
        (ActivityWindowPort.handleCommand samplePort (.str "result")
          (.obj [("code", .str "failed"), ("data", .str "boom")])).2.1).map
        (fun r => r.error) = some (some "Error: boom") ∧
    some (some "Error: boom") ≠ some (some "boom") := by
  constructor
  · rfl
  · decide

theorem portState_set_resolver_false (p : PortState) (h : p.resultResolver = false) :
    ({ p with resultResolver := false } : PortState) = p := by
  cases p
  simp_all

theorem port_disconnect_clears (pst : PortState) :
    (ActivityWindowPort.disconnect pst).1.heartbeatInterval = none ∧
    (ActivityWindowPort.disconnect pst).1.messenger = none ∧
    (ActivityWindowPort.disconnect pst).1.targetWin = none ∧
    (ActivityWindowPort.disconnect pst).1.resultResolver = false := by
  rcases h1 : pst.heartbeatInterval with _ | hid <;>
    rcases h2 : pst.messenger with _ | m <;>
      rcases h3 : pst.targetWin with _ | w <;>
        simp [ActivityWindowPort.disconnect, h1, h2, h3]

theorem messenger_disconnect_of_not_connected (st : MState)
    (h : st.onCommandSet = false) : Messenger.disconnect st = (st, []) := by
  unfold Messenger.disconnect
  simp [h]

theorem port_disconnect_of_cleared (pst : PortState)
    (h1 : pst.heartbeatInterval = none) (h2 : pst.messenger = none)
    (h3 : pst.targetWin = none) (h4 : pst.resultResolver = false) :
    ActivityWindowPort.disconnect pst = (pst, []) := by
  obtain ⟨rid, u, ot, ar, op, cr, rr, tw, hb, ms, wmc, nt⟩ := pst
  simp_all [ActivityWindowPort.disconnect]

/-- C9: both `Messenger.disconnect` and `ActivityWindowPort.disconnect` are
idempotent: re-running `disconnect` on an already-disconnected state leaves
the state unchanged and performs no further resource-release effect. -/
theorem c9_disconnect_idempotent :
    (∀ st : MState,
      Messenger.disconnect (Messenger.disconnect st).1 = ((Messenger.disconnect st).1, [])) ∧
    (∀ pst : PortState,
      ActivityWindowPort.disconnect (ActivityWindowPort.disconnect pst).1 =
        ((ActivityWindowPort.disconnect pst).1, [])) := by
  constructor
  · intro st
    have h : (Messenger.disconnect st).1.onCommandSet = false := by
      unfold Messenger.disconnect
      split <;> simp_all
    exact messenger_disconnect_of_not_connected _ h
  · intro pst
    obtain ⟨h1, h2, h3, h4⟩ := port_disconnect_clears pst
    exact port_disconnect_of_cleared _ h1 h2 h3 h4

theorem port_disconnect_preserves_openTarget (pst : PortState) :
    (ActivityWindowPort.disconnect pst).1.openTarget = pst.openTarget := by
  rcases h1 : pst.heartbeatInterval with _ | hid <;>
    rcases h2 : pst.messenger with _ | m <;>
      rcases h3 : pst.targetWin with _ | w <;>
        simp [ActivityWindowPort.disconnect, h1, h2, h3]

theorem openFinish_preserves_openTarget (pst : PortState) (tw : Option Nat)
    (ft : String) :
    (ActivityWindowPort.openFinish pst tw ft).1.openTarget = pst.openTarget := by
  rcases tw with _ | w
  · simp [ActivityWindowPort.openFinish, ActivityWindowPort.disconnectWithError,
      port_disconnect_preserves_openTarget]
  · simp only [ActivityWindowPort.openFinish]
    split <;> simp [ActivityWindowPort.setupPopup]

theorem openInternal_preserves_openTarget (pst : PortState) (env : OpenEnv) :
    (ActivityWindowPort.openInternal pst env).1.openTarget = pst.openTarget := by
  unfold ActivityWindowPort.openInternal
  exact openFinish_preserves_openTarget _ _ _

/-- C10: a port constructed with a non-`_top` target reports `POPUP` both
before and after `openInternal_`, in every environment — including one
where the first open fails and the code falls back to a `_top` redirect,
since the fallback reassigns only a local variable and never the stored
open-target field that `getMode()` reads. -/
theorem c10_mode_popup (pst : PortState) (env : OpenEnv)
    (h : pst.openTarget ≠ "_top") :
    ActivityWindowPort.getMode pst = .popup ∧
    ActivityWindowPort.getMode (ActivityWindowPort.openInternal pst env).1 = .popup := by
  have hp := openInternal_preserves_openTarget pst env
  constructor <;> simp [ActivityWindowPort.getMode, hp, h]

/-- The environment of the C10 witness: the first open attempt fails and
the redirect fallback succeeds. -/
def sampleOpenEnv : OpenEnv :=
  { isIe := false
    locationHref := "https://client.example/page#frag"
    firstOpenResult := none
    fallbackOpenResult := some 2
    screen := { width := 1000, height := 800, availWidth := 980, availHeight := 780,
                outerWidth := 1000, innerWidth := 990, outerHeight := 800,
                innerHeight := 760, isTop := true, isEdge := false } }

/-- C10 witness: the popup-report survives an actual redirect fallback. -/
theorem c10_mode_popup_witness :
    ActivityWindowPort.getMode samplePort = .popup ∧
    ActivityWindowPort.getMode
      (ActivityWindowPort.openInternal samplePort sampleOpenEnv).1 = .popup :=
  c10_mode_popup samplePort sampleOpenEnv (by decide)

/-- C7: `sendCommand` posts on the dedicated transport whenever one is
installed; otherwise it posts on the target window at the pinned origin;
`connect` is the only command allowed to fall back to the `'*'` wildcard
while the origin is unknown, and any other command sent over broadcast
before the origin is pinned throws `'not connected'`. -/
theorem c7_sendCommand_routing :
    (∀ (st : MState) (cmd : String) (pl : JSVal) (tr : List Nat) (p : Nat),
      st.port = some p →
      Messenger.sendCommand st cmd pl tr = (st, .ok [.postToPort p (mkEnvelope cmd pl) tr])) ∧
    (∀ (st : MState) (cmd : String) (pl : JSVal) (tr : List Nat) (o : String) (w : Nat),
      st.port = none → st.targetOrigin = some o →
      (Messenger.getOptionalTarget st).2 = some w →
      Messenger.sendCommand st cmd pl tr =
        ((Messenger.getOptionalTarget st).1, .ok [.postToWindow w o (mkEnvelope cmd pl) tr])) ∧
    (∀ (st : MState) (pl : JSVal) (tr : List Nat) (w : Nat),
      st.port = none → st.targetOrigin = none →
      (Messenger.getOptionalTarget st).2 = some w →
      Messenger.sendCommand st "connect" pl tr =
        ((Messenger.getOptionalTarget st).1,
          .ok [.postToWindow w "*" (mkEnvelope "connect" pl) tr])) ∧
    (∀ (st : MState) (cmd : String) (pl : JSVal) (tr : List Nat),
      st.port = none → st.targetOrigin = none → cmd ≠ "connect" →
      (Messenger.sendCommand st cmd pl tr).2 = .error "not connected") := by
  refine ⟨?_, ?_, ?_, ?_⟩
  · intro st cmd pl tr p hp
    simp [Messenger.sendCommand, hp]
  · intro st cmd pl tr o w hp ho hw
    have hgt : Messenger.getOptionalTarget st =
        ((Messenger.getOptionalTarget st).1, some w) := by
      rw [← hw]
    have hto : (Messenger.getOptionalTarget st).1.targetOrigin = st.targetOrigin := by
      unfold Messenger.getOptionalTarget
      split <;> rfl
    unfold Messenger.sendCommand
    rw [hp, hgt]
    by_cases hc : cmd = "connect" <;> simp [hc, hto, ho]
  · intro st pl tr w hp ho hw
    have hgt : Messenger.getOptionalTarget st =
        ((Messenger.getOptionalTarget st).1, some w) := by
      rw [← hw]
    have hto : (Messenger.getOptionalTarget st).1.targetOrigin = st.targetOrigin := by
      unfold Messenger.getOptionalTarget
      split <;> rfl
    unfold Messenger.sendCommand
    rw [hp, hgt]
    simp [hto, ho]
  · intro st cmd pl tr hp ho hc
    have hto : (Messenger.getOptionalTarget st).1.targetOrigin = st.targetOrigin := by
      unfold Messenger.getOptionalTarget
      split <;> rfl
    unfold Messenger.sendCommand
    rw [hp]
    rcases hw : (Messenger.getOptionalTarget st).2 with _ | w
    · have hgt : Messenger.getOptionalTarget st =
          ((Messenger.getOptionalTarget st).1, none) := by rw [← hw]
      rw [hgt]
    · have hgt : Messenger.getOptionalTarget st =
          ((Messenger.getOptionalTarget st).1, some w) := by rw [← hw]
      rw [hgt]
      simp [hc, hto, ho]

/-- A broadcast-only messenger whose peer origin is not yet pinned. -/
def sampleBroadcastMessenger : MState :=
  { targetOrCallback := some 1
    targetOrigin := none
    requireTarget := false
    target := some 1
    acceptsChannel := false
    port := none
    onCommandSet := true
    onCustomMessageSet := false
    channels := none
    hasMessageChannel := true
    nextId := 0 }

/-- C7 witness: dedicated-port routing on the sample messenger, wildcard
`connect` and the `'not connected'` throw on the unpinned broadcast
messenger. -/
theorem c7_sendCommand_routing_witness :
    Messenger.sendCommand sampleMessenger "msg" (.obj [("a", .num 1)]) [] =
      (sampleMessenger, .ok [.postToPort 5 (mkEnvelope "msg" (.obj [("a", .num 1)])) []]) ∧
    Messenger.sendCommand sampleBroadcastMessenger "connect" .null [] =
      ((Messenger.getOptionalTarget sampleBroadcastMessenger).1,
        .ok [.postToWindow 1 "*" (mkEnvelope "connect" .null) []]) ∧
    (Messenger.sendCommand sampleBroadcastMessenger "start" .null []).2 =
      .error "not connected" :=
  ⟨(c7_sendCommand_routing).1 sampleMessenger "msg" (.obj [("a", .num 1)]) [] 5 rfl,
   (c7_sendCommand_routing).2.2.1 sampleBroadcastMessenger .null [] 1 rfl rfl rfl,
   (c7_sendCommand_routing).2.2.2 sampleBroadcastMessenger "start" .null [] rfl rfl
     (by decide)⟩

/-- C2 (amended): a broadcast message whose data lacks the exact sentinel
is dropped by `handleEvent_` with no callback, no send, no throw and no
state change beyond the lazy resolution of the target reference performed
by the source-confirmation step; the dedicated-port transport, however,
performs no sentinel check at all: `handlePortMessage` dispatches any data
carrying a truthy `cmd` straight to `handleCommand_`. -/
theorem c2_sentinel_filter :
    (∀ (st : MState) (e : MessageEvent),
      jsLooseEq (jsGet e.data "sentinel") (.str SENTINEL) = false →
      Messenger.handleEvent st e =
        ((if st.requireTarget then (Messenger.getOptionalTarget st).1 else st), [], none)) ∧
    (∀ (st : MState) (e : MessageEvent),
      truthy e.data = true → truthy (jsGet e.data "cmd") = true →
      Messenger.handlePortMessage st e =
        Messenger.handleCommand st (jsGet e.data "cmd")
          (jsOrNull (jsGet e.data "payload")) e) := by
  constructor
  · intro st e h
    unfold Messenger.handleEvent
    by_cases hrt : st.requireTarget = true <;>
      simp only [hrt, Bool.not_eq_true, if_true, if_false, false_and, true_and] <;>
      split <;> simp [h]
  · intro st e hd hc
    unfold Messenger.handlePortMessage
    simp [hd, hc]

/-- The sentinel-less command object of the C2 scenario. -/
def c2PortEventData : JSVal :=
  .obj [("cmd", .str "msg"), ("payload", .obj [("x", .num 1)])]

/-- The sentinel-less inbound event of the C2 scenario. -/
def c2PortEvent : MessageEvent :=
  { data := c2PortEventData, origin := "https://evil.example", source := none, ports := [] }

/-- C2 counterexample: a message without the sentinel, delivered on an
installed dedicated port, does invoke a callback — the custom-message
callback fires on the sample messenger — contradicting the claim that such
a message is a no-op on either transport. -/
theorem c2_counterexample :
    jsLooseEq (jsGet c2PortEventData "sentinel") (.str SENTINEL) = false ∧
    (Messenger.handlePortMessage sampleMessenger c2PortEvent).2.1 =
      [Effect.onCustomMessage (.obj [("x", .num 1)])] ∧
    [Effect.onCustomMessage (.obj [("x", .num 1)])] ≠ ([] : List Effect) := by
  refine ⟨rfl, rfl, by simp⟩

/-- C2 witness: the amended theorem applied to the sample messenger and the
sentinel-less event, on both transports. -/
theorem c2_sentinel_filter_witness :
    Messenger.handleEvent sampleMessenger c2PortEvent =
      ((if sampleMessenger.requireTarget then
          (Messenger.getOptionalTarget sampleMessenger).1
        else sampleMessenger), [], none) ∧
    Messenger.handlePortMessage sampleMessenger c2PortEvent =
      Messenger.handleCommand sampleMessenger (jsGet c2PortEventData "cmd")
        (jsOrNull (jsGet c2PortEventData "payload")) c2PortEvent :=
  ⟨(c2_sentinel_filter).1 sampleMessenger c2PortEvent rfl,
   (c2_sentinel_filter).2 sampleMessenger c2PortEvent rfl rfl⟩

theorem mstate_set_target_self (st : MState) (h : st.targetOrCallback = st.target) :
    ({ st with target := st.targetOrCallback } : MState) = st := by
  cases st
  simp_all

theorem getOptionalTarget_settled (st : MState) (h : cacheSettled st) :
    (Messenger.getOptionalTarget st).1 = st := by
  unfold Messenger.getOptionalTarget
  split
  · rename_i hc
    have hcb : st.targetOrCallback = none := h hc.1 hc.2
    exact mstate_set_target_self st (hcb.trans hc.2.symm)
  · rfl

/-- Relation between a messenger state and any state the embedded code can
produce from it: the target callback is untouched and the target cache is
either untouched or resolved to the callback value. -/
def targetMono (a b : MState) : Prop :=
  b.targetOrCallback = a.targetOrCallback ∧
    (b.target = a.target ∨ b.target = a.targetOrCallback)

theorem targetMono_refl (a : MState) : targetMono a a :=
  ⟨rfl, Or.inl rfl⟩

theorem targetMono_trans {a b c : MState} (h1 : targetMono a b)
    (h2 : targetMono b c) : targetMono a c := by
  obtain ⟨hcb1, ht1⟩ := h1
  obtain ⟨hcb2, ht2⟩ := h2
  refine ⟨hcb2.trans hcb1, ?_⟩
  rcases ht2 with h | h
  · rw [h]; exact ht1
  · rw [h, hcb1]; exact Or.inr rfl

theorem targetMono_P {a b : MState} (h : targetMono a b)
    (hp : a.target = none → a.targetOrCallback = none) :
    b.target = none → b.targetOrCallback = none := by
  intro hbn
  obtain ⟨hcb, ht | ht⟩ := h
  · rw [hcb]; exact hp (ht ▸ hbn)
  · rw [hcb]; rw [ht] at hbn; exact hbn

theorem targetMono_update_origin (a : MState) (x : Option String) :
    targetMono a { a with targetOrigin := x } :=
  ⟨rfl, Or.inl rfl⟩

theorem targetMono_getOptionalTarget (st : MState) :
    targetMono st (Messenger.getOptionalTarget st).1 := by
  unfold Messenger.getOptionalTarget
  split
  · exact ⟨rfl, Or.inr rfl⟩
  · exact targetMono_refl st

theorem getOptionalTarget_P (st : MState) (hoc : st.onCommandSet = true) :
    (Messenger.getOptionalTarget st).1.target = none →
      (Messenger.getOptionalTarget st).1.targetOrCallback = none := by
  unfold Messenger.getOptionalTarget
  split
  · intro h
    simpa using h
  · rename_i hcond
    intro h
    exact absurd ⟨hoc, h⟩ hcond

theorem targetMono_getChannelObj (st : MState) (n : String) :
    targetMono st (Messenger.getChannelObj st n).1 := by
  unfold Messenger.getChannelObj
  dsimp only
  split <;> exact ⟨rfl, Or.inl rfl⟩

theorem targetMono_sendCommand (st : MState) (c : String) (p : JSVal)
    (t : List Nat) : targetMono st (Messenger.sendCommand st c p t).1 := by
  unfold Messenger.sendCommand
  dsimp only
  split
  · exact targetMono_refl st
  · split
    · exact targetMono_getOptionalTarget st
    · split
      · exact targetMono_getOptionalTarget st
      · split
        · exact targetMono_getOptionalTarget st
        · exact targetMono_getOptionalTarget st

theorem targetMono_switchToChannel (st : MState) (p : Nat) :
    targetMono st (Messenger.switchToChannel st p).1 := by
  unfold Messenger.switchToChannel
  exact ⟨rfl, Or.inl rfl⟩

theorem targetMono_receiveChannel (st : MState) (n : String) (p : Option Nat) :
    targetMono st (Messenger.receiveChannel st n p).1 := by
  unfold Messenger.receiveChannel
  exact targetMono_trans (targetMono_getChannelObj st n) ⟨rfl, Or.inl rfl⟩

theorem targetMono_update_channels (a : MState)
    (x : Option (List (String × ChannelHolder))) (y : Nat) :
    targetMono a { a with channels := x, nextId := y } :=
  ⟨rfl, Or.inl rfl⟩

theorem targetMono_update_channels2 (a : MState)
    (x : Option (List (String × ChannelHolder))) :
    targetMono a { a with channels := x } :=
  ⟨rfl, Or.inl rfl⟩

theorem targetMono_startChannel (st : MState) (n : String) :
    targetMono st (Messenger.startChannel st n).1 := by
  unfold Messenger.startChannel
  have m1 : targetMono st (Messenger.getChannelObj st n).1 := targetMono_getChannelObj st n
  dsimp only
  by_cases hc : (Messenger.getChannelObj st n).2.port1 = none
  · rw [if_pos hc]
    dsimp only
    split
    · exact targetMono_trans (targetMono_trans
        (targetMono_trans m1 (targetMono_update_channels _ _ _))
        (targetMono_sendCommand _ _ _ _)) (targetMono_update_channels2 _ _)
    · exact targetMono_trans (targetMono_trans m1 (targetMono_update_channels _ _ _))
        (targetMono_sendCommand _ _ _ _)
  · rw [if_neg hc]
    dsimp only
    split
    · split
      · exact targetMono_trans (targetMono_trans m1 (targetMono_sendCommand _ _ _ _))
          (targetMono_update_channels2 _ _)
      · exact targetMono_trans m1 (targetMono_sendCommand _ _ _ _)
    · exact m1

theorem targetMono_handleCommand (st : MState) (cmd payload : JSVal)
    (e : MessageEvent) :
    targetMono st (Messenger.handleCommand st cmd payload e).1 := by
  unfold Messenger.handleCommand
  dsimp only
  split
  · split <;> split <;> exact ⟨rfl, Or.inl rfl⟩
  · split
    · split <;> split
      · exact targetMono_switchToChannel st _
      · exact targetMono_refl st
      · exact targetMono_switchToChannel st _
      · exact targetMono_refl st
    · split
      · split <;> exact targetMono_refl st
      · split
        · split
          · exact targetMono_refl st
          · exact targetMono_startChannel st _
        · split
          · split
            · exact targetMono_refl st
            · exact targetMono_receiveChannel st _ _
          · split <;> exact targetMono_refl st

theorem targetMono_pinAndDispatch (st1 : MState) (e : MessageEvent)
    (cmd payload : JSVal) :
    targetMono st1 (Messenger.pinAndDispatch st1 e cmd payload).1 := by
  unfold Messenger.pinAndDispatch
  dsimp only
  by_cases h2 : st1.targetOrigin = none ∧ jsLooseEq cmd (.str "start") = true
  · rw [if_pos h2]
    have h3 : ¬ ((some e.origin : Option String) = none ∧ e.source.isSome = true) := by
      simp
    rw [if_neg h3]
    split
    · exact targetMono_update_origin _ _
    · exact targetMono_trans (targetMono_update_origin _ _)
        (targetMono_handleCommand _ _ _ _)
  · rw [if_neg h2]
    by_cases h3 : st1.targetOrigin = none ∧ e.source.isSome = true
    · rw [if_pos h3]
      by_cases h4 : (Messenger.getOptionalTarget st1).2 = e.source
      · rw [if_pos h4]
        split
        · exact targetMono_trans (targetMono_getOptionalTarget _)
            (targetMono_update_origin _ _)
        · exact targetMono_trans
            (targetMono_trans (targetMono_getOptionalTarget _)
              (targetMono_update_origin _ _))
            (targetMono_handleCommand _ _ _ _)
      · rw [if_neg h4]
        split
        · exact targetMono_getOptionalTarget _
        · exact targetMono_trans (targetMono_getOptionalTarget _)
            (targetMono_handleCommand _ _ _ _)
    · rw [if_neg h3]
      split
      · exact targetMono_refl _
      · exact targetMono_handleCommand _ _ _ _


/-- C4: once the peer origin has been pinned, an inbound broadcast message
whose origin differs from the pinned origin is discarded outright: the
state is unchanged (in particular the origin is never re-pinned), nothing
reaches `handleCommand_`, and no effect is produced.  The side condition —
that the lazily resolved target cache is settled whenever source matching
is required — is exactly what the second conjunct establishes: any
`handleEvent_` run in a connected source-matching session leaves the cache
settled, and the claim's pinning events are such runs. -/
theorem c4_origin_pinning :
    (∀ (st : MState) (e : MessageEvent) (o : String),
      st.targetOrigin = some o → (st.requireTarget = true → cacheSettled st) →
      e.origin ≠ o → Messenger.handleEvent st e = (st, [], none)) ∧
    (∀ (st : MState) (e : MessageEvent),
      st.requireTarget = true → st.onCommandSet = true →
      cacheSettled (Messenger.handleEvent st e).1) := by
  constructor
  · intro st e o hpin hset hne
    have hne2 : ¬ (o = e.origin) := fun hh => hne hh.symm
    have hst1 : (if st.requireTarget then (Messenger.getOptionalTarget st).1 else st) = st := by
      split
      · rename_i h
        exact getOptionalTarget_settled st (hset h)
      · rfl
    unfold Messenger.handleEvent Messenger.pinAndDispatch
    simp [hst1, hpin, hne2]
  · intro st e hrt hoc
    have hP1 : ((Messenger.getOptionalTarget st).1.target = none →
        (Messenger.getOptionalTarget st).1.targetOrCallback = none) :=
      getOptionalTarget_P st hoc
    have key : ∀ b : MState, targetMono (Messenger.getOptionalTarget st).1 b →
        cacheSettled b := fun b hb _ => targetMono_P hb hP1
    unfold Messenger.handleEvent
    simp only [hrt, if_true, true_and]
    apply key
    split
    · exact targetMono_refl _
    · split
      · exact targetMono_refl _
      · split
        · exact targetMono_refl _
        · exact targetMono_pinAndDispatch _ e _ _

theorem c4_origin_pinning_witness :
    Messenger.handleEvent sampleMessenger
      { data := .obj [("sentinel", .str "__ACTIVITIES__"), ("cmd", .str "msg")],
        origin := "https://evil.example", source := some 1, ports := [] } =
      (sampleMessenger, [], none) ∧
    cacheSettled (Messenger.handleEvent sampleMessenger c2PortEvent).1 :=
  ⟨(c4_origin_pinning).1 sampleMessenger _ "https://host.example" rfl
      (fun _ _ h => absurd h (by decide)) (by decide),
   (c4_origin_pinning).2 sampleMessenger c2PortEvent rfl rfl⟩

theorem findDeliveredResult_append_some (l1 l2 : List Effect) (r : ActivityResult)
    (h : findDeliveredResult l1 = some r) :
    findDeliveredResult (l1 ++ l2) = some r := by
  induction l1 with
  | nil => simp [findDeliveredResult] at h
  | cons a t ih =>
    cases a <;> simp_all [findDeliveredResult, List.findSome?_cons]

/-- C5 (amended): when the heartbeat poll observes the opened context
closed (it passes the delay flag), it stops the 500 ms poll and schedules
the `CANCELED` resolution after the 3000 ms grace window, resolving nothing
immediately; while the context is open the poll does nothing.  A `check`
command, however, schedules a 200 ms re-check that runs `check_` without
the delay flag, so a closed observation on that path schedules the
`CANCELED` resolution with zero delay.  When the grace timeout fires after
a result already arrived (resolver cleared and the port disconnected by
`result_`), nothing at all is delivered; otherwise it delivers `CANCELED`
with null data. -/
theorem c5_cancel_grace :
    (∀ (pst : PortState) (closed : Bool) (hid : Nat),
      (pst.targetWin = none ∨ closed = true) → pst.heartbeatInterval = some hid →
      ActivityWindowPort.check pst closed true =
        ({ pst with heartbeatInterval := none },
          [.clearIntervalE hid, .setTimeoutE 3000 taskFireCancel])) ∧
    (∀ (pst : PortState) (closed : Bool), pst.targetWin ≠ none → closed = false →
      ActivityWindowPort.check pst closed true = (pst, [])) ∧
    (∀ pst : PortState, ActivityWindowPort.handleCommand pst (.str "check") .null =
      (pst, [.setTimeoutE 200 taskRunCheckNoDelay], none)) ∧
    (∀ (pst : PortState) (closed : Bool) (hid : Nat),
      (pst.targetWin = none ∨ closed = true) → pst.heartbeatInterval = some hid →
      ActivityWindowPort.check pst closed false =
        ({ pst with heartbeatInterval := none },
          [.clearIntervalE hid, .setTimeoutE 0 taskFireCancel])) ∧
    (∀ pst : PortState, pst.resultResolver = false → pst.messenger = none →
      pst.heartbeatInterval = none → pst.targetWin = none →
      ActivityWindowPort.cancelTimeoutFire pst = (pst, [])) ∧
    (∀ (pst : PortState) (m : MState), pst.resultResolver = true →
      pst.messenger = some m →
      ∃ r, findDeliveredResult (ActivityWindowPort.cancelTimeoutFire pst).2 = some r ∧
        r.code = .str ActivityResultCode.CANCELED ∧ r.data = .null ∧ r.ok = false) := by
  refine ⟨?_, ?_, ?_, ?_, ?_, ?_⟩
  · intro pst closed hid hcl hhb
    unfold ActivityWindowPort.check
    rw [if_pos hcl]
    simp [hhb]
  · intro pst closed h1 h2
    unfold ActivityWindowPort.check
    rw [if_neg]
    intro hor
    rcases hor with h | h
    · exact h1 h
    · rw [h2] at h
      exact Bool.false_ne_true h
  · intro pst
    rfl
  · intro pst closed hid hcl hhb
    unfold ActivityWindowPort.check
    rw [if_pos hcl]
    simp [hhb]
  · intro pst hres hm hhb htw
    unfold ActivityWindowPort.cancelTimeoutFire ActivityWindowPort.resultInternal
      ActivityWindowPort.resultTail
    rw [hres, hm]
    simp [port_disconnect_of_cleared pst hhb hm htw hres]
  · intro pst m hres hm
    unfold ActivityWindowPort.cancelTimeoutFire
    rw [resultInternal_resolved pst m _ _ hres hm]
    refine ⟨ActivityResult.make (.str ActivityResultCode.CANCELED) .null .popup
      (match m.targetOrigin with
       | some o => .str o
       | none => .str (getOriginFromUrl pst.url))
      (Messenger.isConnected m) (Messenger.isConnected m), ?_, rfl, rfl, rfl⟩
    have hT := findDeliveredResult_resultTail { pst with resultResolver := false }
      (ActivityResult.make (.str ActivityResultCode.CANCELED) .null .popup
        (match m.targetOrigin with
         | some o => .str o
         | none => .str (getOriginFromUrl pst.url))
        (Messenger.isConnected m) (Messenger.isConnected m)) []
    dsimp only
    rcases hE : (ActivityWindowPort.resultTail { pst with resultResolver := false }
        [Effect.resolveResultE (ActivityResult.make (.str ActivityResultCode.CANCELED)
          .null .popup
          (match m.targetOrigin with
           | some o => .str o
           | none => .str (getOriginFromUrl pst.url))
          (Messenger.isConnected m) (Messenger.isConnected m))]).2.2 with _ | er
    · simp only [hE]
      exact hT
    · simp only [hE]
      exact findDeliveredResult_append_some _ _ _ hT

/-- C5 counterexample: at the concrete steady-state port, a host `check`
command schedules `check_` without the delay flag on a 200 ms timer, and
that closed observation schedules the `CANCELED` resolution after 0 ms —
not after the 3000 ms grace window the claim requires for every closed
observation. -/
theorem c5_counterexample :
    ActivityWindowPort.handleCommand samplePort (.str "check") .null =
      (samplePort, [.setTimeoutE 200 taskRunCheckNoDelay], none) ∧
    ActivityWindowPort.check samplePort true false =
      ({ samplePort with heartbeatInterval := none },
        [.clearIntervalE 3, .setTimeoutE 0 taskFireCancel]) ∧
    (0 : Nat) ≠ 3000 := by
  refine ⟨rfl, rfl, by decide⟩

/-- C5 witness: the amended theorem evaluated at the sample port. -/
theorem c5_cancel_grace_witness :
    ActivityWindowPort.check samplePort true true =
      ({ samplePort with heartbeatInterval := none },
        [.clearIntervalE 3, .setTimeoutE 3000 taskFireCancel]) ∧
    (∃ r, findDeliveredResult (ActivityWindowPort.cancelTimeoutFire samplePort).2 = some r ∧
      r.code = .str ActivityResultCode.CANCELED ∧ r.data = .null ∧ r.ok = false) :=
  ⟨(c5_cancel_grace).1 samplePort true 3 (Or.inr rfl) rfl,
   (c5_cancel_grace).2.2.2.2.2 samplePort sampleMessenger rfl rfl⟩

/-- Sessions on which `sendCommand` cannot throw: either the dedicated
transport is installed, or the broadcast path has a pinned peer origin and
a resolvable target reference. -/
def canSend (st : MState) : Prop :=
  st.port.isSome = true ∨
    (st.targetOrigin.isSome = true ∧
      (Messenger.getOptionalTarget st).2.isSome = true)

/-- The state a successful `sendCommand` leaves behind: unchanged over the
dedicated transport, otherwise the state after the lazy target-cache
resolution. -/
def sendState (st : MState) : MState :=
  match st.port with
  | some _ => st
  | none => (Messenger.getOptionalTarget st).1

theorem lookupChannel_none_filter (chans : List (String × ChannelHolder)) (n : String)
    (h : lookupChannel chans n = none) :
    chans.filter (fun kv => kv.1 == n) = [] := by
  induction chans with
  | nil => rfl
  | cons kv rest ih =>
    unfold lookupChannel at h ih
    rw [List.find?_cons] at h
    cases hb : (kv.1 == n) with
    | true => rw [hb] at h; simp at h
    | false =>
      rw [hb] at h
      simp only [List.filter_cons, hb, if_false]
      exact ih h

theorem lookupChannel_updateChannel (chans : List (String × ChannelHolder))
    (n : String) (h : ChannelHolder) :
    lookupChannel (updateChannel chans n h) n = some h := by
  induction chans with
  | nil => simp [updateChannel, lookupChannel, List.find?]
  | cons kv rest ih =>
    unfold updateChannel
    by_cases hb : kv.1 = n
    · rw [if_pos hb]
      simp [lookupChannel, List.find?_cons]
    · rw [if_neg hb]
      have hbf : (kv.1 == n) = false := by simpa using hb
      simp only [lookupChannel, List.find?_cons, hbf]
      exact ih

theorem length_filter_updateChannel (chans : List (String × ChannelHolder))
    (n : String) (h : ChannelHolder) :
    ((updateChannel chans n h).filter (fun kv => kv.1 == n)).length =
      max ((chans.filter (fun kv => kv.1 == n)).length) 1 := by
  induction chans with
  | nil => simp [updateChannel]
  | cons kv rest ih =>
    by_cases hb : kv.1 = n
    · have hbt : (kv.1 == n) = true := by simpa using hb
      simp only [updateChannel, if_pos hb, List.filter_cons, hbt, beq_self_eq_true,
        if_true, List.length_cons]
      omega
    · have hbf : (kv.1 == n) = false := by simpa using hb
      simp only [updateChannel, if_neg hb, List.filter_cons, hbf, if_false]
      exact ih

theorem getOptionalTarget_snd (st : MState) :
    (Messenger.getOptionalTarget st).2 =
      if st.onCommandSet = true ∧ st.target = none then st.targetOrCallback
      else st.target := by
  unfold Messenger.getOptionalTarget
  split <;> rename_i h <;> simp [h]

theorem getOptionalTarget_fst (st : MState) :
    (Messenger.getOptionalTarget st).1 =
      if st.onCommandSet = true ∧ st.target = none then
        { st with target := st.targetOrCallback }
      else st := by
  unfold Messenger.getOptionalTarget
  split <;> rename_i h <;> simp [h]

theorem getOptionalTarget_origin (st : MState) :
    (Messenger.getOptionalTarget st).1.targetOrigin = st.targetOrigin := by
  unfold Messenger.getOptionalTarget
  split <;> rfl

theorem sendState_channels (st : MState) : (sendState st).channels = st.channels := by
  unfold sendState
  split
  · rfl
  · unfold Messenger.getOptionalTarget
    split <;> rfl

theorem canSend_update (st : MState) (x : Option (List (String × ChannelHolder)))
    (y : Nat) (h : canSend st) :
    canSend { st with channels := x, nextId := y } := by
  unfold canSend at h ⊢
  rw [getOptionalTarget_snd] at h ⊢
  exact h

theorem canSend_sendState (st : MState) (h : canSend st) : canSend (sendState st) := by
  rcases hp : st.port with _ | p
  · have hs : sendState st = (Messenger.getOptionalTarget st).1 := by
      unfold sendState
      rw [hp]
    rw [hs, getOptionalTarget_fst]
    by_cases hcond : st.onCommandSet = true ∧ st.target = none
    · rw [if_pos hcond]
      unfold canSend at h ⊢
      rw [getOptionalTarget_snd] at h ⊢
      rcases h with h | ⟨h1, h2⟩
      · rw [hp] at h
        simp at h
      · rw [if_pos hcond] at h2
        refine Or.inr ⟨h1, ?_⟩
        dsimp only
        split <;> exact h2
    · rw [if_neg hcond]
      exact h
  · have hs : sendState st = st := by
      unfold sendState
      rw [hp]
    rw [hs]
    exact h

theorem sendCommand_canSend (st : MState) (c : String) (pl : JSVal) (tr : List Nat)
    (h : canSend st) :
    ∃ eff, Messenger.sendCommand st c pl tr = (sendState st, .ok [eff]) ∧
      Effect.isSendOf c eff = true := by
  rcases hp : st.port with _ | p
  · rcases h with h | ⟨h1, h2⟩
    · rw [hp] at h
      simp at h
    · rw [Option.isSome_iff_exists] at h1 h2
      obtain ⟨o, ho⟩ := h1
      obtain ⟨w, hw⟩ := h2
      refine ⟨.postToWindow w o (mkEnvelope c pl) tr, ?_,
        by simp [Effect.isSendOf, mkEnvelope, jsGet, jsLooseEq]⟩
      have hgt : Messenger.getOptionalTarget st =
          ((Messenger.getOptionalTarget st).1, some w) := by rw [← hw]
      have hs : sendState st = (Messenger.getOptionalTarget st).1 := by
        unfold sendState
        rw [hp]
      unfold Messenger.sendCommand
      rw [hs, hp, hgt]
      by_cases hc : c = "connect" <;> simp [hc, getOptionalTarget_origin, ho]
  · refine ⟨.postToPort p (mkEnvelope c pl) tr, ?_,
      by simp [Effect.isSendOf, mkEnvelope, jsGet, jsLooseEq]⟩
    have hs : sendState st = st := by
      unfold sendState
      rw [hp]
    rw [hs]
    simp [Messenger.sendCommand, hp]

theorem mstate_channels_eta (st : MState) (h : st.channels.isSome = true) :
    ({ st with channels := some (st.channels.getD []) } : MState) = st := by
  obtain ⟨f1, f2, f3, f4, f5, f6, f7, f8, ch, f10, f11⟩ := st
  cases ch with
  | none => simp at h
  | some l => rfl

theorem startChannel_fresh (st : MState) (n : String)
    (hcs : canSend st) (hns : lookupChannel (st.channels.getD []) n = none) :
    ∃ eff,
      Messenger.startChannel st n =
        ({ sendState { st with
              channels := some (updateChannel
                (updateChannel (st.channels.getD []) n
                  { port1 := none, port2 := none, promiseId := st.nextId }) n
                { port1 := some (st.nextId + 1), port2 := some (st.nextId + 1 + 1),
                  promiseId := st.nextId })
              nextId := st.nextId + 1 + 2 } with
            channels := some (updateChannel
              (updateChannel
                (updateChannel (st.channels.getD []) n
                  { port1 := none, port2 := none, promiseId := st.nextId }) n
                { port1 := some (st.nextId + 1), port2 := some (st.nextId + 1 + 1),
                  promiseId := st.nextId }) n
              { port1 := some (st.nextId + 1), port2 := none,
                promiseId := st.nextId }) },
          [Effect.resolveChannelPromise st.nextId (some (st.nextId + 1)), eff],
          .ok st.nextId) ∧
      Effect.isSendOf "cnset" eff = true := by
  obtain ⟨eff, hsc, hEff⟩ := sendCommand_canSend
    { st with
      channels := some (updateChannel
        (updateChannel (st.channels.getD []) n
          { port1 := none, port2 := none, promiseId := st.nextId }) n
        { port1 := some (st.nextId + 1), port2 := some (st.nextId + 1 + 1),
          promiseId := st.nextId })
      nextId := st.nextId + 1 + 2 }
    "cnset" (.obj [("name", .str n)]) [st.nextId + 1 + 1]
    (canSend_update st _ _ hcs)
  refine ⟨eff, ?_, hEff⟩
  simp [Messenger.startChannel, Messenger.getChannelObj, hns, hsc, sendState_channels]

theorem askChannel_fresh (st : MState) (n : String)
    (hcs : canSend st) (hns : lookupChannel (st.channels.getD []) n = none) :
    ∃ eff,
      Messenger.askChannel st n =
        (sendState { st with
            channels := some (updateChannel (st.channels.getD []) n
              { port1 := none, port2 := none, promiseId := st.nextId })
            nextId := st.nextId + 1 },
          [eff], .ok st.nextId) ∧
      Effect.isSendOf "cnget" eff = true := by
  obtain ⟨eff, hsc, hEff⟩ := sendCommand_canSend
    { st with
      channels := some (updateChannel (st.channels.getD []) n
        { port1 := none, port2 := none, promiseId := st.nextId })
      nextId := st.nextId + 1 }
    "cnget" (.obj [("name", .str n)]) [] (canSend_update st _ _ hcs)
  refine ⟨eff, ?_, hEff⟩
  simp [Messenger.askChannel, Messenger.getChannelObj, hns, hsc]

theorem startChannel_established (st : MState) (n : String) (h : ChannelHolder)
    (hf : lookupChannel (st.channels.getD []) n = some h)
    (hch : st.channels.isSome = true)
    (hp1 : h.port1.isSome = true) (hp2 : h.port2 = none) :
    Messenger.startChannel st n = (st, [], .ok h.promiseId) := by
  have hne : h.port1 ≠ none := by
    intro hz
    rw [hz] at hp1
    simp at hp1
  simp [Messenger.startChannel, Messenger.getChannelObj, hf,
    mstate_channels_eta st hch, hne, hp2]

theorem askChannel_pending (st : MState) (n : String) (h : ChannelHolder)
    (hcs : canSend st)
    (hf : lookupChannel (st.channels.getD []) n = some h)
    (hch : st.channels.isSome = true)
    (hp1 : h.port1 = none) :
    ∃ eff, Messenger.askChannel st n = (sendState st, [eff], .ok h.promiseId) ∧
      Effect.isSendOf "cnget" eff = true := by
  obtain ⟨eff, hsc, hEff⟩ := sendCommand_canSend st "cnget" (.obj [("name", .str n)]) [] hcs
  refine ⟨eff, ?_, hEff⟩
  simp [Messenger.askChannel, Messenger.getChannelObj, hf,
    mstate_channels_eta st hch, hp1, hsc]

theorem askChannel_established (st : MState) (n : String) (h : ChannelHolder)
    (hf : lookupChannel (st.channels.getD []) n = some h)
    (hch : st.channels.isSome = true)
    (hp1 : h.port1.isSome = true) :
    Messenger.askChannel st n = (st, [], .ok h.promiseId) := by
  have hne : h.port1 ≠ none := by
    intro hz
    rw [hz] at hp1
    simp at hp1
  simp [Messenger.askChannel, Messenger.getChannelObj, hf,
    mstate_channels_eta st hch, hne]

/-- C6 (amended): for a fresh sub-channel name on any session that can
deliver sends (`canSend`: a dedicated transport installed, or a broadcast
session with a pinned peer origin and a resolvable target reference),
`startChannel` and `askChannel` return the identical promise on every
call, repeated calls never create a second `ChannelHolder`, and two
`startChannel` calls trigger exactly one `cnset` send — but a second
`askChannel` before the peer has responded re-sends `cnget` (it still
returns the same promise); an `askChannel` after `startChannel` sends
nothing. -/
theorem c6_channel_dedup (st : MState) (n : String)
    (hcs : canSend st)
    (hns : lookupChannel (st.channels.getD []) n = none) :
    (Messenger.startChannel st n).2.2 = .ok st.nextId ∧
    (Messenger.startChannel (Messenger.startChannel st n).1 n).2.2 = .ok st.nextId ∧
    countSends (Messenger.startChannel st n).2.1 "cnset" = 1 ∧
    (Messenger.startChannel (Messenger.startChannel st n).1 n).2.1 = [] ∧
    channelCount (Messenger.startChannel (Messenger.startChannel st n).1 n).1 n = 1 ∧
    (Messenger.askChannel st n).2.2 = .ok st.nextId ∧
    (Messenger.askChannel (Messenger.askChannel st n).1 n).2.2 = .ok st.nextId ∧
    countSends (Messenger.askChannel st n).2.1 "cnget" = 1 ∧
    countSends (Messenger.askChannel (Messenger.askChannel st n).1 n).2.1 "cnget" = 1 ∧
    channelCount (Messenger.askChannel (Messenger.askChannel st n).1 n).1 n = 1 ∧
    (Messenger.askChannel (Messenger.startChannel st n).1 n).2.2 = .ok st.nextId ∧
    (Messenger.askChannel (Messenger.startChannel st n).1 n).2.1 = [] := by
  obtain ⟨effS, hS1, hEffS⟩ := startChannel_fresh st n hcs hns
  obtain ⟨effA, hA1, hEffA⟩ := askChannel_fresh st n hcs hns
  have hS2 : Messenger.startChannel (Messenger.startChannel st n).1 n =
      ((Messenger.startChannel st n).1, [], .ok st.nextId) := by
    rw [hS1]
    dsimp only
    exact startChannel_established _ n
      { port1 := some (st.nextId + 1), port2 := none, promiseId := st.nextId }
      (lookupChannel_updateChannel _ n _) rfl rfl rfl
  have hSA : Messenger.askChannel (Messenger.startChannel st n).1 n =
      ((Messenger.startChannel st n).1, [], .ok st.nextId) := by
    rw [hS1]
    dsimp only
    exact askChannel_established _ n
      { port1 := some (st.nextId + 1), port2 := none, promiseId := st.nextId }
      (lookupChannel_updateChannel _ n _) rfl rfl
  have hcsA : canSend (Messenger.askChannel st n).1 := by
    rw [hA1]
    dsimp only
    exact canSend_sendState _ (canSend_update st _ _ hcs)
  obtain ⟨effA2, hA2, hEffA2⟩ := askChannel_pending (Messenger.askChannel st n).1 n
    { port1 := none, port2 := none, promiseId := st.nextId } hcsA
    (by
      rw [hA1]
      dsimp only
      rw [sendState_channels]
      exact lookupChannel_updateChannel _ n _)
    (by
      rw [hA1]
      dsimp only
      rw [sendState_channels]
      rfl)
    rfl
  refine ⟨?_, ?_, ?_, ?_, ?_, ?_, ?_, ?_, ?_, ?_, ?_, ?_⟩
  · rw [hS1]
  · rw [hS2]
  · rw [hS1]
    have hres : Effect.isSendOf "cnset"
        (Effect.resolveChannelPromise st.nextId (some (st.nextId + 1))) = false := rfl
    simp [countSends, hEffS, hres]
  · rw [hS2]
  · rw [hS2, hS1]
    simp [channelCount, sendState_channels, length_filter_updateChannel,
      lookupChannel_none_filter _ _ hns]
  · rw [hA1]
  · rw [hA2]
  · rw [hA1]
    simp [countSends, hEffA]
  · rw [hA2]
    simp [countSends, hEffA2]
  · rw [hA2, hA1]
    simp [channelCount, sendState_channels, length_filter_updateChannel,
      lookupChannel_none_filter _ _ hns]
  · rw [hSA]
  · rw [hSA]

/-- C6 counterexample: on the sample messenger, a second `askChannel("x")`
issued before the peer responded returns the same promise but sends a
second `cnget` — the claim's "returns the already-created promise without
re-sending" is false for `askChannel`. -/
theorem c6_counterexample :
    (Messenger.askChannel sampleMessenger "x").2.2 = .ok 10 ∧
    (Messenger.askChannel (Messenger.askChannel sampleMessenger "x").1 "x").2.2 =
      .ok 10 ∧
    (Messenger.askChannel (Messenger.askChannel sampleMessenger "x").1 "x").2.1 =
      [Effect.postToPort 5 (mkEnvelope "cnget" (.obj [("name", .str "x")])) []] ∧
    [Effect.postToPort 5 (mkEnvelope "cnget" (.obj [("name", .str "x")])) []] ≠
      ([] : List Effect) := by
  refine ⟨rfl, rfl, rfl, by simp⟩

/-- A broadcast-only messenger (no dedicated port) whose peer origin is
pinned and whose target reference is resolved. -/
def samplePinnedBroadcast : MState :=
  { targetOrCallback := some 1
    targetOrigin := some "https://host.example"
    requireTarget := false
    target := some 1
    acceptsChannel := false
    port := none
    onCommandSet := true
    onCustomMessageSet := false
    channels := none
    hasMessageChannel := true
    nextId := 0 }

/-- C6 witness: the amended theorem evaluated on the dedicated-port sample
messenger and on the pinned broadcast messenger. -/
theorem c6_channel_dedup_witness :
    ((Messenger.startChannel sampleMessenger "x").2.2 = .ok 10 ∧
      countSends (Messenger.startChannel sampleMessenger "x").2.1 "cnset" = 1) ∧
    ((Messenger.startChannel samplePinnedBroadcast "x").2.2 = .ok 0 ∧
      countSends (Messenger.startChannel samplePinnedBroadcast "x").2.1 "cnset" = 1) :=
  ⟨⟨(c6_channel_dedup sampleMessenger "x" (Or.inl rfl) rfl).1,
    (c6_channel_dedup sampleMessenger "x" (Or.inl rfl) rfl).2.2.1⟩,
   ⟨(c6_channel_dedup samplePinnedBroadcast "x" (Or.inr ⟨rfl, rfl⟩) rfl).1,
    (c6_channel_dedup samplePinnedBroadcast "x" (Or.inr ⟨rfl, rfl⟩) rfl).2.2.1⟩⟩

/-- The JSON payload decoded from the redirect-return fragment. -/
def waResResponse : JSVal :=
  .obj [("requestId", .str "r1"), ("code", .str "ok"),
        ("data", .obj [("a", .num 1)]), ("origin", .str "https://x")]

/-- C3: with the `__WA_RES__` fragment carrying the scenario's payload and
a matching expected request id, `discoverRedirectPort` returns a port whose
`acceptResult()` immediately yields a fulfilled result with `code = OK`,
`data = {a: 1}`, `mode = REDIRECT`, `secureChannel = false`, and
`originVerified` true exactly when the declared origin equals the origin of
the document's referrer; a mismatched request id or an absent parameter
yields no port. -/
theorem c3_redirect_recovery :
    (∀ referrer : String,
      discoverRedirectPort { locationHash := waResFragment, referrer := referrer }
        waResFragment "r1" =
        .ok (some
          { code := .str "ok"
            data := .obj [("a", .num 1)]
            targetOrigin := .str "https://x"
            targetOriginVerified :=
              "https://x" == (if referrer = "" then "" else getOriginFromUrl referrer) },
          [Effect.historyReplace ""])) ∧
    (∀ referrer : String,
      (RedirectPort.acceptResult
        { code := .str "ok"
          data := .obj [("a", .num 1)]
          targetOrigin := .str "https://x"
          targetOriginVerified :=
            "https://x" == (if referrer = "" then "" else getOriginFromUrl referrer) }) =
        { code := .str "ok"
          data := .obj [("a", .num 1)]
          mode := .redirect
          origin := .str "https://x"
          originVerified :=
            "https://x" == (if referrer = "" then "" else getOriginFromUrl referrer)
          secureChannel := false
          ok := true
          error := none }) ∧
    (∀ rid : String, rid ≠ "r1" →
      discoverRedirectPort { locationHash := waResFragment, referrer := "" }
        waResFragment rid = .ok (none, [])) ∧
    (discoverRedirectPort { locationHash := "#other=1", referrer := "" }
      "#other=1" "r1" = .ok (none, [])) := by
  refine ⟨?_, ?_, ?_, ?_⟩
  · intro referrer
    rfl
  · intro referrer
    rfl
  · intro rid hrid
    have hq : getQueryParam waResFragment "__WA_RES__" =
        some "\x7b\"requestId\":\"r1\",\"code\":\"ok\",\"data\":\x7b\"a\":1\x7d,\"origin\":\"https://x\"\x7d" := rfl
    have hj : jsonParse "\x7b\"requestId\":\"r1\",\"code\":\"ok\",\"data\":\x7b\"a\":1\x7d,\"origin\":\"https://x\"\x7d" =
        some waResResponse := rfl
    have hbf : ("r1" == rid) = false := by
      simpa using fun hh => hrid hh.symm
    simp [discoverRedirectPort, hq, hj, hbf, truthy, jsGet, jsLooseEq, waResResponse]
  · rfl

/-- C3 witness: the theorem evaluated at a referrer whose origin matches
the declared origin, and at a mismatched request id. -/
theorem c3_redirect_recovery_witness :
    discoverRedirectPort { locationHash := waResFragment, referrer := "https://x/page" }
      waResFragment "r1" =
      .ok (some
        { code := .str "ok"
          data := .obj [("a", .num 1)]
          targetOrigin := .str "https://x"
          targetOriginVerified := true },
        [Effect.historyReplace ""]) ∧
    discoverRedirectPort { locationHash := waResFragment, referrer := "" }
      waResFragment "zzz" = .ok (none, []) :=
  ⟨(c3_redirect_recovery).1 "https://x/page",
   (c3_redirect_recovery).2.2.1 "zzz" (by decide)⟩
